import Mathlib

/-!
# Verification of the LinearSystemLibrary iterative solvers

Shallow embedding of `methodsDeepseek.py` (Jacobi, Gauss-Seidel, gradient and
conjugate-gradient solvers plus the string dispatcher) over exact rational
arithmetic, together with proofs about the embedded code.

Encoding conventions:
* numpy vectors of length n are `Fin n → ℚ`; matrices are `Matrix (Fin n) (Fin n) ℚ`.
* The source tests `np.linalg.norm r / np.linalg.norm b < tol`, a comparison of
  Euclidean norms.  Over ℚ the square root is unavailable, so every such test is
  embedded in the equivalent squared form `sqnorm r < tol^2 * sqnorm b`, which for
  a positive tolerance and nonzero `b` agrees exactly with the source comparison.
  Likewise the returned relative error `norm (x - x_exact) / norm x_exact` is
  returned in squared form `sqnorm (x - x_exact) / sqnorm x_exact`.
* The wall-clock time component of the Python return tuple is omitted: it is the
  only part of the result that is not a mathematical function of the inputs.
* Each solver runs `for k in range(max_iter)` and afterwards returns `x, k + 1, ...`.
  When `max_iter = 0` the loop body never executes, the name `k` is never bound,
  and the `return` statement raises `UnboundLocalError`.  The embedding therefore
  returns `Option`: `none` models that raise, `some` a normal return.
-/

namespace LSL

/-- Dense vector of length `n` (numpy 1-d array of doubles, modelled exactly). -/
abbrev Vec (n : ℕ) := Fin n → ℚ


/-- Square matrix (scipy sparse / numpy dense matrix, modelled by its entries). -/
abbrev Mat (n : ℕ) := Matrix (Fin n) (Fin n) ℚ


/-- `v.dot(w)` of numpy. -/
def dot {n : ℕ} (v w : Vec n) : ℚ := ∑ i, v i * w i


/-- Squared Euclidean norm: `np.linalg.norm v` squared. -/
def sqnorm {n : ℕ} (v : Vec n) : ℚ := ∑ i, v i * v i


/-! ## Jacobi (`jacobi` in the source) -/

/-- `D = sp.diags(A.diagonal())`. -/
def diagMatrix {n : ℕ} (A : Mat n) : Mat n := Matrix.diagonal (fun i => A i i)


/-- `D_inv = sp.diags(1 / A.diagonal())`. -/
def jacobiDinv {n : ℕ} (A : Mat n) : Mat n := Matrix.diagonal (fun i => 1 / A i i)


/-- `R = A - D`. -/
def jacobiR {n : ℕ} (A : Mat n) : Mat n := A - diagMatrix A


/-- One Jacobi update `x_new = D_inv.dot(b - R.dot(x))`. -/
def jacobiStep {n : ℕ} (A : Mat n) (b x : Vec n) : Vec n :=
  (jacobiDinv A).mulVec (b - (jacobiR A).mulVec x)


/-- The Jacobi `for k in range(max_iter)` loop, with the fuel argument counting
the iterations that may still run after the current one and `k` the current
loop index.  Returns the values of the locals `x` and `k` when the loop exits.
Note the source order: the convergence test on `x_new` comes BEFORE the
assignment `x = x_new`, so a `break` leaves `x` at the previous iterate; only
when the test fails (or on the final iteration, where the loop continues and
then runs out) does `x` receive `x_new`. -/
def jacobiGo {n : ℕ} (A : Mat n) (b : Vec n) (tol : ℚ) :
    ℕ → Vec n → ℕ → Vec n × ℕ
  | 0, x, k =>
    let xnew := jacobiStep A b x
    if sqnorm (A.mulVec xnew - b) < tol ^ 2 * sqnorm b then (x, k) else (xnew, k)
  | r + 1, x, k =>
    let xnew := jacobiStep A b x
    if sqnorm (A.mulVec xnew - b) < tol ^ 2 * sqnorm b then (x, k)
    else jacobiGo A b tol r xnew (k + 1)


/-- `jacobi(A, b, x_exact, tol, max_iter)`: returns `some (x, k + 1, squared
relative error)` on normal return, `none` for the `UnboundLocalError` raised
when `max_iter = 0` (the loop variable `k` is then never bound, and the
statement `return x, k + 1, ...` raises). -/
def jacobi {n : ℕ} (A : Mat n) (b x_exact : Vec n) (tol : ℚ) (max_iter : ℕ) :
    Option (Vec n × ℕ × ℚ) :=
  match max_iter with
  | 0 => none
  | m + 1 =>
    let res := jacobiGo A b tol m (0 : Vec n) 0
    some (res.1, res.2 + 1, sqnorm (res.1 - x_exact) / sqnorm x_exact)


/-! ## Gauss-Seidel (`gauss_seidel` in the source)

The source first converts the sparse matrix to a dense array
(`A = A.toarray()`), which rebinds the local name `A` and leaves the entries
unchanged; in the entry-level model the conversion is the identity. -/

/-- The assignment
`x[i] = (b[i] - A[i, :i] @ x[:i] - A[i, i + 1:] @ x_old[i + 1:]) / A[i, i]`:
components `j < i` are read from the current, partially updated `x`,
components `j > i` from the copy `x_old` made at the start of the sweep. -/
def gsUpdate {n : ℕ} (A : Mat n) (b xold x : Vec n) (i : Fin n) : Vec n :=
  Function.update x i
    ((b i - ∑ j ∈ Finset.univ.filter (fun j => j < i), A i j * x j
          - ∑ j ∈ Finset.univ.filter (fun j => i < j), A i j * xold j) / A i i)


/-- State of the local `x` after the first `m` updates of the inner loop
`for i in range(A.shape[0])` of a sweep that started from `x_old = xold`. -/
def gsAux {n : ℕ} (A : Mat n) (b xold : Vec n) : ℕ → Vec n
  | 0 => xold
  | m + 1 =>
    if h : m < n then gsUpdate A b xold (gsAux A b xold m) ⟨m, h⟩
    else gsAux A b xold m


/-- One full Gauss-Seidel sweep: all `n` components updated in increasing
index order. -/
def gsSweep {n : ℕ} (A : Mat n) (b xold : Vec n) : Vec n := gsAux A b xold n


/-- The Gauss-Seidel `for k in range(max_iter)` loop.  Each iteration performs
one full sweep and then evaluates the relative-residual test once.  On a
`break` the returned `x` is the swept vector (the sweep mutates `x` in place,
so here, unlike in `jacobi`, the fresh iterate is returned). -/
def gsGo {n : ℕ} (A : Mat n) (b : Vec n) (tol : ℚ) :
    ℕ → Vec n → ℕ → Vec n × ℕ
  | 0, x, k =>
    -- final iteration: whether or not the test succeeds, the loop exits with
    -- the swept vector and the current k
    (gsSweep A b x, k)
  | r + 1, x, k =>
    let xs := gsSweep A b x
    if sqnorm (A.mulVec xs - b) < tol ^ 2 * sqnorm b then (xs, k)
    else gsGo A b tol r xs (k + 1)


/-- `gauss_seidel(A, b, x_exact, tol, max_iter)`; see `jacobi` for the meaning
of the `Option` and of the components. -/
def gauss_seidel {n : ℕ} (A : Mat n) (b x_exact : Vec n) (tol : ℚ)
    (max_iter : ℕ) : Option (Vec n × ℕ × ℚ) :=
  match max_iter with
  | 0 => none
  | m + 1 =>
    let res := gsGo A b tol m (0 : Vec n) 0
    some (res.1, res.2 + 1, sqnorm (res.1 - x_exact) / sqnorm x_exact)


/-! ## Gradient method (`gradient` in the source) -/

/-- The updates `Ap = A.dot(p)`, `alpha = r.dot(r) / p.dot(Ap)`,
`x += alpha * p`, `r_new = r - alpha * Ap`: returns `(x, r_new)` after them. -/
def gradNext {n : ℕ} (A : Mat n) (x r p : Vec n) : Vec n × Vec n :=
  let Ap := A.mulVec p
  let alpha := dot r r / dot p Ap
  (x + alpha • p, r - alpha • Ap)


/-- The gradient-method `for k in range(max_iter)` loop.  On continuation the
new direction is `p = r_new + beta * p` with `beta = r_new.dot(r_new) / r.dot(r)`,
the denominator taken at the PREVIOUS residual `r` (the assignment `r = r_new`
comes after `beta` and `p` are computed). -/
def gradGo {n : ℕ} (A : Mat n) (b : Vec n) (tol : ℚ) :
    ℕ → Vec n → Vec n → Vec n → ℕ → Vec n × ℕ
  | 0, x, r, p, k =>
    -- final iteration: the loop exits with the updated x either way
    ((gradNext A x r p).1, k)
  | rem + 1, x, r, p, k =>
    let s := gradNext A x r p
    if sqnorm s.2 < tol ^ 2 * sqnorm b then (s.1, k)
    else gradGo A b tol rem s.1 s.2 (s.2 + (dot s.2 s.2 / dot r r) • p) (k + 1)


/-- `gradient(A, b, x_exact, tol, max_iter)`: starts from `x = 0`,
`r = b - A.dot(x)`, `p = r.copy()`. -/
def gradient {n : ℕ} (A : Mat n) (b x_exact : Vec n) (tol : ℚ) (max_iter : ℕ) :
    Option (Vec n × ℕ × ℚ) :=
  match max_iter with
  | 0 => none
  | m + 1 =>
    let x0 : Vec n := 0
    let r0 := b - A.mulVec x0
    let res := gradGo A b tol m x0 r0 r0 0
    some (res.1, res.2 + 1, sqnorm (res.1 - x_exact) / sqnorm x_exact)


/-! ## Conjugate gradient (`conjugate_gradient` in the source) -/

/-- The updates `Ap = A.dot(p)`, `alpha = rsold / p.dot(Ap)`, `x += alpha * p`,
`r -= alpha * Ap`: returns `(x, r)` after them. -/
def cgNext {n : ℕ} (A : Mat n) (x r p : Vec n) (rsold : ℚ) : Vec n × Vec n :=
  let Ap := A.mulVec p
  let alpha := rsold / dot p Ap
  (x + alpha • p, r - alpha • Ap)


/-- The conjugate-gradient `for k in range(max_iter)` loop: after the updates,
`rsnew = r.dot(r)` is tested (`sqrt(rsnew)/norm(b) < tol`, embedded squared);
on continuation `p = r + (rsnew / rsold) * p` and `rsold = rsnew`. -/
def cgGo {n : ℕ} (A : Mat n) (b : Vec n) (tol : ℚ) :
    ℕ → Vec n → Vec n → Vec n → ℚ → ℕ → Vec n × ℕ
  | 0, x, r, p, rsold, k =>
    -- final iteration: the loop exits with the updated x either way
    ((cgNext A x r p rsold).1, k)
  | rem + 1, x, r, p, rsold, k =>
    let s := cgNext A x r p rsold
    let rsnew := dot s.2 s.2
    if rsnew < tol ^ 2 * sqnorm b then (s.1, k)
    else cgGo A b tol rem s.1 s.2 (s.2 + (rsnew / rsold) • p) rsnew (k + 1)


/-- `conjugate_gradient(A, b, x_exact, tol, max_iter)`: starts from `x = 0`,
`r = b - A.dot(x)`, `p = r.copy()`, `rsold = r.dot(r)`. -/
def conjugate_gradient {n : ℕ} (A : Mat n) (b x_exact : Vec n) (tol : ℚ)
    (max_iter : ℕ) : Option (Vec n × ℕ × ℚ) :=
  match max_iter with
  | 0 => none
  | m + 1 =>
    let x0 : Vec n := 0
    let r0 := b - A.mulVec x0
    let res := cgGo A b tol m x0 r0 r0 (dot r0 r0) 0
    some (res.1, res.2 + 1, sqnorm (res.1 - x_exact) / sqnorm x_exact)


/-! ## Dispatcher (`solve_linear_system` in the source)

Strings in this Lean version are lists of characters, so Python string
methods are modelled entry-wise.  `method.lower()` on the ASCII method names
is a character-wise lowering, and `str.replace` with a single-character
pattern replaces every occurrence of that character. -/

/-- `method.lower()` (character-wise, exact on ASCII input). -/
def pyLower (s : String) : String := ⟨s.data.map Char.toLower⟩


/-- `s.replace(c, r)` for a single-character pattern. -/
def replaceChar (c r : Char) (s : String) : String :=
  ⟨s.data.map (fun x => if x = c then r else x)⟩


/-- `method.lower().replace('-', '_').replace(' ', '_')`. -/
def normalizeMethod (s : String) : String :=
  replaceChar ' ' '_' (replaceChar '-' '_' (pyLower s))


/-- The four solver functions the dispatcher can route to. -/
inductive MethodTag
  | jacobiT
  | gaussSeidelT
  | gradientT
  | conjugateGradientT
  deriving DecidableEq


/-- The `method_map` dictionary of the source, as an association list. -/
def method_map : List (String × MethodTag) :=
  [ (r"jacobi", MethodTag.jacobiT),
    (r"gauss_seidel", MethodTag.gaussSeidelT),
    (r"gs", MethodTag.gaussSeidelT),
    (r"gradient", MethodTag.gradientT),
    (r"grad", MethodTag.gradientT),
    (r"conjugate_gradient", MethodTag.conjugateGradientT),
    (r"cg", MethodTag.conjugateGradientT),
    (r"gradiente", MethodTag.gradientT),
    (r"gradiente_coniugato", MethodTag.conjugateGradientT) ]


/-- Tail of the `ValueError` message raised for an unrecognized method (the
source encloses each listed name in single-quote characters; those quote
characters are omitted here, the listed names and separators are kept). -/
def invalidMethodTail : String :=
  " non valido. Scegli tra: \n- jacobi\n- gauss_seidel/gs\n- gradient/grad\n- conjugate_gradient/cg"


/-- The full `ValueError` message `Metodo {method} non valido. ...`. -/
def invalidMethodMessage (m : String) : String :=
  (r"Metodo ") ++ m ++ invalidMethodTail


/-- `method_map[method](A, b, x_exact, tol, max_iter)`. -/
def runMethod {n : ℕ} : MethodTag → Mat n → Vec n → Vec n → ℚ → ℕ →
    Option (Vec n × ℕ × ℚ)
  | MethodTag.jacobiT => jacobi
  | MethodTag.gaussSeidelT => gauss_seidel
  | MethodTag.gradientT => gradient
  | MethodTag.conjugateGradientT => conjugate_gradient


/-- `solve_linear_system(method, A, b, x_exact, tol, max_iter)`.
`Except.error` models the `ValueError` raised at the dispatcher boundary for
an unrecognized method name; `Except.ok` wraps the chosen solver's result. -/
def solve_linear_system {n : ℕ} (method : String) (A : Mat n) (b x_exact : Vec n)
    (tol : ℚ) (max_iter : ℕ) : Except String (Option (Vec n × ℕ × ℚ)) :=
  match List.lookup (normalizeMethod method) method_map with
  | some t => Except.ok (runMethod t A b x_exact tol max_iter)
  | none => Except.error (invalidMethodMessage (normalizeMethod method))


/-! ## The concrete scenario of the spec: `A = diag([2,3,4])`, `x_exact = ones` -/

/-- The diagonally dominant test matrix `diag([2, 3, 4])`. -/
def A3 : Mat 3 := Matrix.of ![![2, 0, 0], ![0, 3, 0], ![0, 0, 4]]


/-- Right-hand side `b = A · ones = [2, 3, 4]`. -/
def b3 : Vec 3 := ![2, 3, 4]


/-- Exact solution `ones(3)`. -/
def xe3 : Vec 3 := ![1, 1, 1]


/-! ## Spec-side description of the conjugate-gradient recurrence (claim C4) -/

/-- The conjugate-gradient loop exactly as the spec sentence describes it:
`Ap = A·p`, `α = rsold/(p·Ap)`, `x += α·p`, `r -= α·Ap`, `rsnew = r·r`,
terminate when `√rsnew/‖b‖ < tol` (squared form), else `p = r + (rsnew/rsold)·p`
and `rsold = rsnew`.  Written from the spec text, independently of `cgGo`. -/
def cgSpecGo {n : ℕ} (A : Mat n) (b : Vec n) (tol : ℚ) :
    ℕ → Vec n → Vec n → Vec n → ℚ → ℕ → Vec n × ℕ
  | 0, x, _r, p, rsold, k =>
    let Ap := A.mulVec p
    let alpha := rsold / dot p Ap
    (x + alpha • p, k)
  | rem + 1, x, r, p, rsold, k =>
    let Ap := A.mulVec p
    let alpha := rsold / dot p Ap
    let x' := x + alpha • p
    let r' := r - alpha • Ap
    let rsnew := dot r' r'
    if rsnew < tol ^ 2 * sqnorm b then (x', k)
    else cgSpecGo A b tol rem x' r' (r' + (rsnew / rsold) • p) rsnew (k + 1)


/-- The conjugate-gradient method as the spec sentence describes it: starts
from `x = 0` with `r_0 = b`, `p_0 = r_0`, `rsold = r_0·r_0`, then iterates
`cgSpecGo`. -/
def cgSpec {n : ℕ} (A : Mat n) (b x_exact : Vec n) (tol : ℚ) (max_iter : ℕ) :
    Option (Vec n × ℕ × ℚ) :=
  match max_iter with
  | 0 => none
  | m + 1 =>
    let res := cgSpecGo A b tol m (0 : Vec n) b b (dot b b) 0
    some (res.1, res.2 + 1, sqnorm (res.1 - x_exact) / sqnorm x_exact)


/-! ## Heap-level model of the solvers (claim C9)

The Python solvers receive references to caller-owned numpy/scipy objects and
use both rebinding (`x = x_new`, `A = A.toarray()`), fresh allocations
(`np.zeros_like`, `.copy()`, every arithmetic expression) and genuine in-place
mutation (`x += alpha * p`, `r -= alpha * Ap`, `x[i] = ...`).  To state that the
caller's `A`, `b` and `x_exact` are never modified, the solvers are re-traced
over an explicit heap: addresses are naturals, each cell holds a vector or a
matrix, allocation returns a fresh address `h.next`, and exactly the
operations that numpy executes in place become `Heap.write`s.  Inputs are
passed as addresses; rebinding a Python local is passing a different address
onward. -/

/-- A heap cell: a numpy vector or a (sparse or dense) matrix. -/
inductive Val (n : ℕ)
  | vec (v : Vec n)
  | mat (M : Mat n)


/-- Heap: memory contents plus the next fresh address. -/
structure Heap (n : ℕ) where
  mem : ℕ → Val n
  next : ℕ


/-- In-place mutation of the object at address `a`. -/
def Heap.write {n : ℕ} (h : Heap n) (a : ℕ) (v : Val n) : Heap n :=
  ⟨Function.update h.mem a v, h.next⟩


/-- Allocation of a fresh object; returns the new heap and the address. -/
def Heap.alloc {n : ℕ} (h : Heap n) (v : Val n) : Heap n × ℕ :=
  (⟨Function.update h.mem h.next v, h.next + 1⟩, h.next)


/-- Read a vector (reads are never performed at matrix cells by the solvers;
the junk value `0` keeps the function total). -/
def Heap.readVec {n : ℕ} (h : Heap n) (a : ℕ) : Vec n :=
  match h.mem a with
  | Val.vec v => v
  | Val.mat _ => 0


/-- Read a matrix. -/
def Heap.readMat {n : ℕ} (h : Heap n) (a : ℕ) : Mat n :=
  match h.mem a with
  | Val.mat M => M
  | Val.vec _ => 0


/-- `Pres N h h'`: going from `h` to `h'`, every address below `N` is
untouched (and the allocator never goes backwards below `N`). -/
def Pres {n : ℕ} (N : ℕ) (h h' : Heap n) : Prop :=
  N ≤ h'.next ∧ ∀ a, a < N → h'.mem a = h.mem a


/-- Heap trace of the Jacobi loop.  Per iteration: `x_new` is a fresh
allocation, the residual test reads `A`, `b` and the fresh cell, and `x = x_new`
is a rebinding (the recursive call proceeds with the fresh address).  No write
to a pre-existing cell ever happens. -/
def jacobiHGo {n : ℕ} (tol : ℚ) (aA ab aDinv aR : ℕ) :
    ℕ → Heap n → ℕ → ℕ → Heap n × ℕ × ℕ
  | 0, h, ax, k =>
    let p := h.alloc (Val.vec
      ((h.readMat aDinv).mulVec (h.readVec ab - (h.readMat aR).mulVec (h.readVec ax))))
    if sqnorm ((p.1.readMat aA).mulVec (p.1.readVec p.2) - p.1.readVec ab)
        < tol ^ 2 * sqnorm (p.1.readVec ab) then (p.1, ax, k)
    else (p.1, p.2, k)
  | r + 1, h, ax, k =>
    let p := h.alloc (Val.vec
      ((h.readMat aDinv).mulVec (h.readVec ab - (h.readMat aR).mulVec (h.readVec ax))))
    if sqnorm ((p.1.readMat aA).mulVec (p.1.readVec p.2) - p.1.readVec ab)
        < tol ^ 2 * sqnorm (p.1.readVec ab) then (p.1, ax, k)
    else jacobiHGo tol aA ab aDinv aR r p.1 p.2 (k + 1)


/-- Heap trace of `jacobi`: allocates `x = zeros`, the derived matrices `D`,
`D_inv` and `R`, then runs the loop.  Returns the final heap and the result
(with the solution as an address). -/
def jacobiH {n : ℕ} (h0 : Heap n) (aA ab axe : ℕ) (tol : ℚ) (max_iter : ℕ) :
    Heap n × Option (ℕ × ℕ × ℚ) :=
  let px := h0.alloc (Val.vec 0)
  let A := px.1.readMat aA
  let pD := px.1.alloc (Val.mat (diagMatrix A))
  let pDi := pD.1.alloc (Val.mat (jacobiDinv A))
  let pR := pDi.1.alloc (Val.mat (jacobiR A))
  match max_iter with
  | 0 => (pR.1, none)
  | m + 1 =>
    let res := jacobiHGo tol aA ab pDi.2 pR.2 m pR.1 px.2 0
    (res.1, some (res.2.1, res.2.2 + 1,
      sqnorm (res.1.readVec res.2.1 - res.1.readVec axe) / sqnorm (res.1.readVec axe)))


/-- Heap trace of the Gauss-Seidel inner loop `for i in range(n): x[i] = ...`:
each step writes one updated component into the cell of the local `x`. -/
def gsHInner {n : ℕ} (aA2 ab axold ax : ℕ) : ℕ → Heap n → Heap n
  | 0, h => h
  | m + 1, h =>
    let h' := gsHInner aA2 ab axold ax m h
    if hm : m < n then
      h'.write ax (Val.vec
        (gsUpdate (h'.readMat aA2) (h'.readVec ab) (h'.readVec axold)
          (h'.readVec ax) ⟨m, hm⟩))
    else h'


/-- Heap trace of the Gauss-Seidel loop: per sweep, `x_old = x.copy()` is a
fresh allocation, the inner loop mutates `x` in place, and the residual test
reads the dense matrix, `x` and `b`. -/
def gsHGo {n : ℕ} (tol : ℚ) (aA2 ab : ℕ) :
    ℕ → Heap n → ℕ → ℕ → Heap n × ℕ × ℕ
  | 0, h, ax, k =>
    let pold := h.alloc (Val.vec (h.readVec ax))
    (gsHInner aA2 ab pold.2 ax n pold.1, ax, k)
  | r + 1, h, ax, k =>
    let pold := h.alloc (Val.vec (h.readVec ax))
    let h1 := gsHInner aA2 ab pold.2 ax n pold.1
    if sqnorm ((h1.readMat aA2).mulVec (h1.readVec ax) - h1.readVec ab)
        < tol ^ 2 * sqnorm (h1.readVec ab) then (h1, ax, k)
    else gsHGo tol aA2 ab r h1 ax (k + 1)


/-- Heap trace of `gauss_seidel`: allocates `x = zeros`; `A = A.toarray()`
allocates a fresh dense copy and REBINDS the local name `A` to it (the loop
below works on the fresh address `pA2.2`), leaving the caller's matrix cell
untouched. -/
def gauss_seidelH {n : ℕ} (h0 : Heap n) (aA ab axe : ℕ) (tol : ℚ)
    (max_iter : ℕ) : Heap n × Option (ℕ × ℕ × ℚ) :=
  let px := h0.alloc (Val.vec 0)
  let pA2 := px.1.alloc (Val.mat (px.1.readMat aA))
  match max_iter with
  | 0 => (pA2.1, none)
  | m + 1 =>
    let res := gsHGo tol pA2.2 ab m pA2.1 px.2 0
    (res.1, some (res.2.1, res.2.2 + 1,
      sqnorm (res.1.readVec res.2.1 - res.1.readVec axe) / sqnorm (res.1.readVec axe)))


/-- Heap trace of the gradient-method loop.  `Ap`, `r_new` and the new `p` are
fresh allocations; `x += alpha * p` is an in-place write to the cell of the
local `x` (which `gradient` itself allocated); `r = r_new` is a rebinding. -/
def gradientHGo {n : ℕ} (tol : ℚ) (aA ab : ℕ) :
    ℕ → Heap n → ℕ → ℕ → ℕ → ℕ → Heap n × ℕ × ℕ
  | 0, h, ax, ar, ap, k =>
    let pAp := h.alloc (Val.vec ((h.readMat aA).mulVec (h.readVec ap)))
    let h1 := pAp.1
    let alpha := dot (h1.readVec ar) (h1.readVec ar) /
      dot (h1.readVec ap) (h1.readVec pAp.2)
    let h2 := h1.write ax (Val.vec (h1.readVec ax + alpha • h1.readVec ap))
    let prn := h2.alloc (Val.vec (h2.readVec ar - alpha • h2.readVec pAp.2))
    let h3 := prn.1
    if sqnorm (h3.readVec prn.2) < tol ^ 2 * sqnorm (h3.readVec ab) then (h3, ax, k)
    else
      let beta := dot (h3.readVec prn.2) (h3.readVec prn.2) /
        dot (h3.readVec ar) (h3.readVec ar)
      let pp := h3.alloc (Val.vec (h3.readVec prn.2 + beta • h3.readVec ap))
      (pp.1, ax, k)
  | rem + 1, h, ax, ar, ap, k =>
    let pAp := h.alloc (Val.vec ((h.readMat aA).mulVec (h.readVec ap)))
    let h1 := pAp.1
    let alpha := dot (h1.readVec ar) (h1.readVec ar) /
      dot (h1.readVec ap) (h1.readVec pAp.2)
    let h2 := h1.write ax (Val.vec (h1.readVec ax + alpha • h1.readVec ap))
    let prn := h2.alloc (Val.vec (h2.readVec ar - alpha • h2.readVec pAp.2))
    let h3 := prn.1
    if sqnorm (h3.readVec prn.2) < tol ^ 2 * sqnorm (h3.readVec ab) then (h3, ax, k)
    else
      let beta := dot (h3.readVec prn.2) (h3.readVec prn.2) /
        dot (h3.readVec ar) (h3.readVec ar)
      let pp := h3.alloc (Val.vec (h3.readVec prn.2 + beta • h3.readVec ap))
      gradientHGo tol aA ab rem pp.1 ax prn.2 pp.2 (k + 1)


/-- Heap trace of `gradient`: allocates `x = zeros`, `r = b - A.dot(x)` and
`p = r.copy()`, then runs the loop. -/
def gradientH {n : ℕ} (h0 : Heap n) (aA ab axe : ℕ) (tol : ℚ) (max_iter : ℕ) :
    Heap n × Option (ℕ × ℕ × ℚ) :=
  let px := h0.alloc (Val.vec 0)
  let pr := px.1.alloc (Val.vec
    (px.1.readVec ab - (px.1.readMat aA).mulVec (px.1.readVec px.2)))
  let pp := pr.1.alloc (Val.vec (pr.1.readVec pr.2))
  match max_iter with
  | 0 => (pp.1, none)
  | m + 1 =>
    let res := gradientHGo tol aA ab m pp.1 px.2 pr.2 pp.2 0
    (res.1, some (res.2.1, res.2.2 + 1,
      sqnorm (res.1.readVec res.2.1 - res.1.readVec axe) / sqnorm (res.1.readVec axe)))


/-- Heap trace of the conjugate-gradient loop.  `Ap` and the new `p` are fresh
allocations; `x += alpha * p` and `r -= alpha * Ap` are in-place writes to the
cells of the locals `x` and `r` (both allocated by `conjugate_gradient`). -/
def cgHGo {n : ℕ} (tol : ℚ) (aA ab : ℕ) :
    ℕ → Heap n → ℕ → ℕ → ℕ → ℚ → ℕ → Heap n × ℕ × ℕ
  | 0, h, ax, ar, ap, rsold, k =>
    let pAp := h.alloc (Val.vec ((h.readMat aA).mulVec (h.readVec ap)))
    let h1 := pAp.1
    let alpha := rsold / dot (h1.readVec ap) (h1.readVec pAp.2)
    let h2 := h1.write ax (Val.vec (h1.readVec ax + alpha • h1.readVec ap))
    let h3 := h2.write ar (Val.vec (h2.readVec ar - alpha • h2.readVec pAp.2))
    let rsnew := dot (h3.readVec ar) (h3.readVec ar)
    if rsnew < tol ^ 2 * sqnorm (h3.readVec ab) then (h3, ax, k)
    else
      let pp := h3.alloc (Val.vec (h3.readVec ar + (rsnew / rsold) • h3.readVec ap))
      (pp.1, ax, k)
  | rem + 1, h, ax, ar, ap, rsold, k =>
    let pAp := h.alloc (Val.vec ((h.readMat aA).mulVec (h.readVec ap)))
    let h1 := pAp.1
    let alpha := rsold / dot (h1.readVec ap) (h1.readVec pAp.2)
    let h2 := h1.write ax (Val.vec (h1.readVec ax + alpha • h1.readVec ap))
    let h3 := h2.write ar (Val.vec (h2.readVec ar - alpha • h2.readVec pAp.2))
    let rsnew := dot (h3.readVec ar) (h3.readVec ar)
    if rsnew < tol ^ 2 * sqnorm (h3.readVec ab) then (h3, ax, k)
    else
      let pp := h3.alloc (Val.vec (h3.readVec ar + (rsnew / rsold) • h3.readVec ap))
      cgHGo tol aA ab rem pp.1 ax ar pp.2 rsnew (k + 1)


/-- Heap trace of `conjugate_gradient`. -/
def conjugate_gradientH {n : ℕ} (h0 : Heap n) (aA ab axe : ℕ) (tol : ℚ)
    (max_iter : ℕ) : Heap n × Option (ℕ × ℕ × ℚ) :=
  let px := h0.alloc (Val.vec 0)
  let pr := px.1.alloc (Val.vec
    (px.1.readVec ab - (px.1.readMat aA).mulVec (px.1.readVec px.2)))
  let pp := pr.1.alloc (Val.vec (pr.1.readVec pr.2))
  let rsold := dot (pp.1.readVec pr.2) (pp.1.readVec pr.2)
  match max_iter with
  | 0 => (pp.1, none)
  | m + 1 =>
    let res := cgHGo tol aA ab m pp.1 px.2 pr.2 pp.2 rsold 0
    (res.1, some (res.2.1, res.2.2 + 1,
      sqnorm (res.1.readVec res.2.1 - res.1.readVec axe) / sqnorm (res.1.readVec axe)))


/-- A concrete three-cell heap for the witness: the matrix at address 0, the
vectors `b` and `x_exact` at addresses 1 and 2. -/
def testHeap : Heap 1 :=
  ⟨fun a => if a = 0 then Val.mat 1 else Val.vec 1, 3⟩


/-! ## Theorems -/

/-- Claim C7: the dispatcher routes the alias `gs` and the canonical name
`gauss_seidel` to the same algorithm, for every input; moreover the
normalization is case-insensitive (`GS`) and maps `-` and space to `_`
(`Gauss-Seidel`, `gauss seidel`), so those spellings dispatch identically
as well. -/
theorem solve_gs_alias :
    ∀ (n : ℕ) (A : Mat n) (b xe : Vec n) (tol : ℚ) (it : ℕ),
      solve_linear_system (r"gs") A b xe tol it =
        solve_linear_system (r"gauss_seidel") A b xe tol it ∧
      solve_linear_system (r"GS") A b xe tol it =
        solve_linear_system (r"gs") A b xe tol it ∧
      solve_linear_system (r"Gauss-Seidel") A b xe tol it =
        solve_linear_system (r"gauss_seidel") A b xe tol it ∧
      solve_linear_system (r"gauss seidel") A b xe tol it =
        solve_linear_system (r"gauss_seidel") A b xe tol it :=
  fun _ _ _ _ _ _ => ⟨rfl, rfl, rfl, rfl⟩


/-- Claim C8: whenever the normalized method identifier is not a key of
`method_map`, the dispatcher returns the `ValueError` (never a solver result),
whose message text lists all the valid names and aliases.  The error value is
`Except.error` applied to the message alone: no solver is invoked and the
numeric inputs do not influence the outcome. -/
theorem invalid_method_rejected :
    ∀ {n : ℕ} (method : String) (A : Mat n) (b xe : Vec n) (tol : ℚ) (it : ℕ),
      List.lookup (normalizeMethod method) method_map = none →
      solve_linear_system method A b xe tol it =
        Except.error (invalidMethodMessage (normalizeMethod method)) ∧
      (∃ u v, invalidMethodTail = u ++ (r"jacobi") ++ v) ∧
      (∃ u v, invalidMethodTail = u ++ (r"gauss_seidel") ++ v) ∧
      (∃ u v, invalidMethodTail = u ++ (r"gs") ++ v) ∧
      (∃ u v, invalidMethodTail = u ++ (r"gradient") ++ v) ∧
      (∃ u v, invalidMethodTail = u ++ (r"grad") ++ v) ∧
      (∃ u v, invalidMethodTail = u ++ (r"conjugate_gradient") ++ v) ∧
      (∃ u v, invalidMethodTail = u ++ (r"cg") ++ v) := by
  intro n method A b xe tol it h
  refine ⟨?_, ?_, ?_, ?_, ?_, ?_, ?_, ?_⟩
  · unfold solve_linear_system
    rw [h]
  · exact ⟨" non valido. Scegli tra: \n- ",
      "\n- gauss_seidel/gs\n- gradient/grad\n- conjugate_gradient/cg", by decide⟩
  · exact ⟨" non valido. Scegli tra: \n- jacobi\n- ",
      "/gs\n- gradient/grad\n- conjugate_gradient/cg", by decide⟩
  · exact ⟨" non valido. Scegli tra: \n- jacobi\n- gauss_seidel/",
      "\n- gradient/grad\n- conjugate_gradient/cg", by decide⟩
  · exact ⟨" non valido. Scegli tra: \n- jacobi\n- gauss_seidel/gs\n- ",
      "/grad\n- conjugate_gradient/cg", by decide⟩
  · exact ⟨" non valido. Scegli tra: \n- jacobi\n- gauss_seidel/gs\n- gradient/",
      "\n- conjugate_gradient/cg", by decide⟩
  · exact ⟨" non valido. Scegli tra: \n- jacobi\n- gauss_seidel/gs\n- gradient/grad\n- ",
      "/cg", by decide⟩
  · exact ⟨" non valido. Scegli tra: \n- jacobi\n- gauss_seidel/gs\n- gradient/grad\n- conjugate_gradient/",
      "", by decide⟩


/-- Witness for `invalid_method_rejected`, at the unrecognized name
`newton` and a concrete one-dimensional system. -/
theorem invalid_method_rejected_witness :
    List.lookup (normalizeMethod (r"newton")) method_map = none ∧
      (solve_linear_system (r"newton") (0 : Mat 1) (0 : Vec 1) (0 : Vec 1) 1 1 =
        Except.error (invalidMethodMessage (normalizeMethod (r"newton"))) ∧
      (∃ u v, invalidMethodTail = u ++ (r"jacobi") ++ v) ∧
      (∃ u v, invalidMethodTail = u ++ (r"gauss_seidel") ++ v) ∧
      (∃ u v, invalidMethodTail = u ++ (r"gs") ++ v) ∧
      (∃ u v, invalidMethodTail = u ++ (r"gradient") ++ v) ∧
      (∃ u v, invalidMethodTail = u ++ (r"grad") ++ v) ∧
      (∃ u v, invalidMethodTail = u ++ (r"conjugate_gradient") ++ v) ∧
      (∃ u v, invalidMethodTail = u ++ (r"cg") ++ v)) :=
  ⟨by decide,
    invalid_method_rejected (r"newton") (0 : Mat 1) (0 : Vec 1) (0 : Vec 1) 1 1 (by decide)⟩


lemma jacobiStep_A3_zero : jacobiStep A3 b3 0 = xe3 := by
  funext i
  fin_cases i <;>
    norm_num [jacobiStep, jacobiDinv, jacobiR, diagMatrix, A3, b3, xe3,
      Matrix.mulVec, Matrix.dotProduct, Fin.sum_univ_three, Matrix.diagonal]


lemma A3_mulVec_xe3 : A3.mulVec xe3 = b3 := by
  funext i
  fin_cases i <;>
    norm_num [A3, b3, xe3, Matrix.mulVec, Matrix.dotProduct, Fin.sum_univ_three]


lemma sqnorm_b3 : sqnorm b3 = 29 := by
  norm_num [sqnorm, b3, Fin.sum_univ_three]


/-- The first fresh Jacobi iterate on the scenario meets the tolerance test. -/
lemma jacobi_first_test_passes :
    sqnorm (A3.mulVec (jacobiStep A3 b3 0) - b3) < (1 / 1000000 : ℚ) ^ 2 * sqnorm b3 := by
  rw [jacobiStep_A3_zero, A3_mulVec_xe3, sqnorm_b3, sub_self]
  norm_num [sqnorm, Fin.sum_univ_three]


/-- Unfolding equation for one loop iteration with fuel left. -/
lemma jacobiGo_succ {n : ℕ} (A : Mat n) (b : Vec n) (tol : ℚ) (r : ℕ)
    (x : Vec n) (k : ℕ) :
    jacobiGo A b tol (r + 1) x k =
      if sqnorm (A.mulVec (jacobiStep A b x) - b) < tol ^ 2 * sqnorm b then (x, k)
      else jacobiGo A b tol r (jacobiStep A b x) (k + 1) := rfl


lemma jacobiGo_A3_eval :
    jacobiGo A3 b3 (1 / 1000000) 19999 (0 : Vec 3) 0 = (0, 0) := by
  rw [show (19999 : ℕ) = 19998 + 1 from by norm_num, jacobiGo_succ,
    if_pos jacobi_first_test_passes]


lemma jacobi_A3_eval :
    jacobi A3 b3 xe3 (1 / 1000000) 20000 = some ((0 : Vec 3), 1, 1) := by
  rw [show (20000 : ℕ) = 19999 + 1 from by norm_num]
  show some ((jacobiGo A3 b3 (1 / 1000000) 19999 (0 : Vec 3) 0).1, _, _) = _
  rw [jacobiGo_A3_eval]
  norm_num [sqnorm, xe3, Fin.sum_univ_three]


/-- Claim C1 (code bug, evaluated at the failing input): on the scenario
`A = diag([2,3,4])`, `b = [2,3,4]`, `tol = 1e-6`, the Jacobi loop breaks in the
first iteration because the fresh iterate `x_new = D⁻¹ b` meets the tolerance;
but the returned solution is the PREVIOUS iterate `x = 0` (the `break` precedes
the assignment `x = x_new`), whose relative residual is `1`, not below the
tolerance as the claim states.  The three conjuncts say: the returned tuple is
`(0, 1, 1)`; the break was indeed triggered by the fresh iterate; the returned
vector fails the residual test which the claim asserts it passes. -/
theorem jacobi_returns_stale_iterate :
    jacobi A3 b3 xe3 (1 / 1000000) 20000 = some ((0 : Vec 3), 1, 1) ∧
    sqnorm (A3.mulVec (jacobiStep A3 b3 0) - b3) < (1 / 1000000 : ℚ) ^ 2 * sqnorm b3 ∧
    ¬ sqnorm (A3.mulVec (0 : Vec 3) - b3) < (1 / 1000000 : ℚ) ^ 2 * sqnorm b3 := by
  refine ⟨jacobi_A3_eval, jacobi_first_test_passes, ?_⟩
  rw [Matrix.mulVec_zero, zero_sub, sqnorm_b3]
  have : sqnorm (-b3) = 29 := by norm_num [sqnorm, b3, Fin.sum_univ_three]
  rw [this]
  norm_num


/-- Claim C2 counterexample: with `max_iterations = 0` the Jacobi method does
not return a result at all: the loop body never runs, the loop variable `k` is
never bound, and `return x, k + 1, ...` raises `UnboundLocalError` (modelled by
`none`), contradicting the claimed return of the zero initial guess. -/
theorem maxIter_zero_jacobi_raises :
    jacobi A3 b3 xe3 (1 / 1000000) 0 = none := rfl


/-- Claim C2 (amended): with `max_iterations = 0` every one of the four methods
raises (`UnboundLocalError` on the unbound loop variable `k`) instead of
returning a result. -/
theorem maxIter_zero_all_methods_raise :
    ∀ (n : ℕ) (A : Mat n) (b xe : Vec n) (tol : ℚ),
      jacobi A b xe tol 0 = none ∧ gauss_seidel A b xe tol 0 = none ∧
      gradient A b xe tol 0 = none ∧ conjugate_gradient A b xe tol 0 = none :=
  fun _ _ _ _ _ => ⟨rfl, rfl, rfl, rfl⟩


/-- Claim C3 (code bug, evaluated at the failing input): on the spec scenario
`A = diag([2,3,4])`, `b = [2,3,4]`, `x_exact = ones`, `tol = 1e-6`, the first
Jacobi update `D⁻¹ b` is exactly `x_exact` (second conjunct) and the returned
iteration count is `1` as claimed, but the returned solution is the initial
zero vector and the returned relative error is `1` (squared form also `1`),
not approximately `0` as claimed. -/
theorem jacobi_diag_scenario_error_one :
    jacobi A3 b3 xe3 (1 / 1000000) 20000 = some ((0 : Vec 3), 1, 1) ∧
    jacobiStep A3 b3 0 = xe3 ∧
    sqnorm ((0 : Vec 3) - xe3) / sqnorm xe3 = 1 := by
  refine ⟨jacobi_A3_eval, jacobiStep_A3_zero, ?_⟩
  norm_num [sqnorm, xe3, Fin.sum_univ_three]


lemma cgGo_eq_cgSpecGo {n : ℕ} (A : Mat n) (b : Vec n) (tol : ℚ) :
    ∀ (rem : ℕ) (x r p : Vec n) (rsold : ℚ) (k : ℕ),
      cgGo A b tol rem x r p rsold k = cgSpecGo A b tol rem x r p rsold k := by
  intro rem
  induction rem with
  | zero => intro x r p rsold k; rfl
  | succ m ih =>
    intro x r p rsold k
    simp only [cgGo, cgSpecGo, cgNext]
    split
    · rfl
    · exact ih _ _ _ _ _


/-- Claim C4: the source conjugate-gradient method coincides, on every input,
with the recurrence exactly as the spec describes it (`r_0 = b` rather than the
source's literal `b - A·0`, and the same per-iteration updates and
termination test). -/
theorem conjugate_gradient_matches_spec :
    ∀ {n : ℕ} (A : Mat n) (b xe : Vec n) (tol : ℚ) (it : ℕ),
      conjugate_gradient A b xe tol it = cgSpec A b xe tol it := by
  intro n A b xe tol it
  cases it with
  | zero => rfl
  | succ m =>
    simp only [conjugate_gradient, cgSpec, Matrix.mulVec_zero, sub_zero]
    rw [cgGo_eq_cgSpecGo]


/-- Claim C5: one non-final gradient-method iteration performs, in order,
`Ap = A·p`, `α = (r·r)/(p·Ap)`, `x += α·p`, `r_new = r − α·Ap`, and when the
termination test fails continues with direction `p = r_new + β·p` where
`β = (r_new·r_new)/(r·r)` — the denominator being the squared norm of the
residual `r` from BEFORE the update `r = r_new`. -/
theorem gradient_update_formulas :
    ∀ {n : ℕ} (A : Mat n) (b : Vec n) (tol : ℚ) (rem : ℕ) (x r p : Vec n) (k : ℕ),
      gradGo A b tol (rem + 1) x r p k =
        (let Ap := A.mulVec p
         let alpha := dot r r / dot p Ap
         let x' := x + alpha • p
         let rnew := r - alpha • Ap
         let beta := dot rnew rnew / dot r r
         if sqnorm rnew < tol ^ 2 * sqnorm b then (x', k)
         else gradGo A b tol rem x' rnew (rnew + beta • p) (k + 1)) :=
  fun _ _ _ _ _ _ _ _ => rfl


/-! ## Gauss-Seidel sweep characterization (claim C6) -/

lemma gsAux_of_le {n : ℕ} (A : Mat n) (b xold : Vec n) :
    ∀ (m : ℕ) (j : Fin n), m ≤ (j : ℕ) → gsAux A b xold m j = xold j := by
  intro m
  induction m with
  | zero => intro j _; rfl
  | succ m ih =>
    intro j hj
    have hmj : m < (j : ℕ) := hj
    have hmn : m < n := lt_trans hmj j.isLt
    simp only [gsAux]
    rw [dif_pos hmn]
    unfold gsUpdate
    rw [Function.update_noteq (Fin.ne_of_val_ne (Nat.ne_of_gt hmj))]
    exact ih j (le_of_lt hmj)


lemma gsAux_stable {n : ℕ} (A : Mat n) (b xold : Vec n) :
    ∀ (mfin m : ℕ) (j : Fin n), (j : ℕ) < m → m ≤ mfin →
      gsAux A b xold mfin j = gsAux A b xold m j := by
  intro mfin
  induction mfin with
  | zero => intro m j _ hm; rw [Nat.le_zero.mp hm]
  | succ mf ih =>
    intro m j hj hm
    rcases Nat.lt_succ_iff_lt_or_eq.mp (Nat.lt_succ_of_le hm) with hlt | heq
    · have hmf : m ≤ mf := Nat.lt_succ_iff.mp hlt
      have hjmf : (j : ℕ) ≠ mf := Nat.ne_of_lt (lt_of_lt_of_le hj hmf)
      simp only [gsAux]
      by_cases hmn : mf < n
      · rw [dif_pos hmn]
        unfold gsUpdate
        rw [Function.update_noteq (Fin.ne_of_val_ne hjmf)]
        exact ih m j hj hmf
      · rw [dif_neg hmn]
        exact ih m j hj hmf
    · rw [heq]


lemma gsSweep_component {n : ℕ} (A : Mat n) (b xold : Vec n) (i : Fin n) :
    gsSweep A b xold i =
      (b i - ∑ j ∈ Finset.univ.filter (fun j => j < i), A i j * gsSweep A b xold j
           - ∑ j ∈ Finset.univ.filter (fun j => i < j), A i j * xold j) / A i i := by
  have hstab : ∀ (j : Fin n), (j : ℕ) < (i : ℕ) →
      gsSweep A b xold j = gsAux A b xold (i : ℕ) j := fun j hji =>
    gsAux_stable A b xold n (i : ℕ) j hji (le_of_lt i.isLt)
  have h1 : gsSweep A b xold i = gsAux A b xold ((i : ℕ) + 1) i :=
    gsAux_stable A b xold n ((i : ℕ) + 1) i (Nat.lt_succ_self _)
      (Nat.succ_le_of_lt i.isLt)
  rw [h1]
  simp only [gsAux]
  rw [dif_pos i.isLt]
  unfold gsUpdate
  have hi : (⟨(i : ℕ), i.isLt⟩ : Fin n) = i := rfl
  rw [hi, Function.update_same]
  have hsum :
      ∑ j ∈ Finset.univ.filter (fun j => j < i), A i j * gsAux A b xold (i : ℕ) j
        = ∑ j ∈ Finset.univ.filter (fun j => j < i), A i j * gsSweep A b xold j :=
    Finset.sum_congr rfl
      (fun j hj => by rw [hstab j (Finset.mem_filter.mp hj).2])
  rw [hsum]


/-- Claim C6: in each Gauss-Seidel sweep every component `i` (in increasing
index order) satisfies
`x[i] = (b[i] − Σ_{j<i} A[i,j]·x[j] − Σ_{j>i} A[i,j]·x_old[j]) / A[i,i]`,
where `x[j]` for `j < i` are the already-updated values of the same sweep and
`x_old[j]` for `j > i` the values from before the sweep (first conjunct); and
each loop iteration performs one full sweep followed by exactly one
relative-residual test on the swept vector (second conjunct). -/
theorem gauss_seidel_sweep_order :
    ∀ {n : ℕ} (A : Mat n) (b xold : Vec n),
      (∀ i : Fin n, gsSweep A b xold i =
        (b i - ∑ j ∈ Finset.univ.filter (fun j => j < i), A i j * gsSweep A b xold j
             - ∑ j ∈ Finset.univ.filter (fun j => i < j), A i j * xold j) / A i i) ∧
      (∀ (tol : ℚ) (r : ℕ) (k : ℕ),
        gsGo A b tol (r + 1) xold k =
          if sqnorm (A.mulVec (gsSweep A b xold) - b) < tol ^ 2 * sqnorm b
          then (gsSweep A b xold, k)
          else gsGo A b tol r (gsSweep A b xold) (k + 1)) :=
  fun A b xold => ⟨gsSweep_component A b xold, fun _ _ _ => rfl⟩


/-! ## The residual invariant of the Krylov loops (claim C10) -/

/-- Claim C10: in both the gradient and the conjugate-gradient loop, if the
loop-head invariant `r = b − A·x` holds, then after the in-loop updates the
incrementally maintained residual (second component of `gradNext` / `cgNext`,
the vector used in the termination test) again equals the true residual
`b − A·x` of the updated iterate — so the invariant holds at the start of
every iteration (it holds initially by the definitions `r0 = b - A.mulVec x0`
in `gradient` and `conjugate_gradient`, and is preserved by each step; the
scalar `rsold` of CG is arbitrary here because `r - α·Ap = b - A·(x + α·p)`
holds for every step size `α`). -/
theorem residual_invariant :
    ∀ {n : ℕ} (A : Mat n) (b x r p : Vec n) (rsold : ℚ),
      r = b - A.mulVec x →
      (gradNext A x r p).2 = b - A.mulVec (gradNext A x r p).1 ∧
      (cgNext A x r p rsold).2 = b - A.mulVec (cgNext A x r p rsold).1 := by
  intro n A b x r p rsold h
  constructor <;>
  · simp only [gradNext, cgNext]
    rw [h, Matrix.mulVec_add, Matrix.mulVec_smul, sub_add_eq_sub_sub]


lemma readVec_alloc_self {n : ℕ} (h : Heap n) (v : Vec n) :
    (h.alloc (Val.vec v)).1.readVec (h.alloc (Val.vec v)).2 = v := by
  simp [Heap.alloc, Heap.readVec, Function.update_same]


lemma readMat_alloc_self {n : ℕ} (h : Heap n) (M : Mat n) :
    (h.alloc (Val.mat M)).1.readMat (h.alloc (Val.mat M)).2 = M := by
  simp [Heap.alloc, Heap.readMat, Function.update_same]


lemma readVec_alloc_ne {n : ℕ} (h : Heap n) (v : Val n) {a : ℕ} (ha : a ≠ h.next) :
    (h.alloc v).1.readVec a = h.readVec a := by
  simp [Heap.alloc, Heap.readVec, Function.update_noteq ha]


lemma readMat_alloc_ne {n : ℕ} (h : Heap n) (v : Val n) {a : ℕ} (ha : a ≠ h.next) :
    (h.alloc v).1.readMat a = h.readMat a := by
  simp [Heap.alloc, Heap.readMat, Function.update_noteq ha]


lemma readVec_write_self {n : ℕ} (h : Heap n) (a : ℕ) (v : Vec n) :
    (h.write a (Val.vec v)).readVec a = v := by
  simp [Heap.write, Heap.readVec, Function.update_same]


lemma readVec_write_ne {n : ℕ} (h : Heap n) (v : Val n) {a a' : ℕ} (ha : a' ≠ a) :
    (h.write a v).readVec a' = h.readVec a' := by
  simp [Heap.write, Heap.readVec, Function.update_noteq ha]


lemma readMat_write_ne {n : ℕ} (h : Heap n) (v : Val n) {a a' : ℕ} (ha : a' ≠ a) :
    (h.write a v).readMat a' = h.readMat a' := by
  simp [Heap.write, Heap.readMat, Function.update_noteq ha]


lemma pres_refl {n : ℕ} (N : ℕ) (h : Heap n) (hN : N ≤ h.next) : Pres N h h :=
  ⟨hN, fun _ _ => rfl⟩


lemma pres_trans {n : ℕ} {N : ℕ} {h1 h2 h3 : Heap n}
    (p : Pres N h1 h2) (q : Pres N h2 h3) : Pres N h1 h3 :=
  ⟨q.1, fun a ha => (q.2 a ha).trans (p.2 a ha)⟩


lemma pres_alloc {n : ℕ} {N : ℕ} {h : Heap n} (hN : N ≤ h.next) (v : Val n) :
    Pres N h (h.alloc v).1 :=
  ⟨Nat.le_succ_of_le hN,
   fun _a ha => Function.update_noteq (Nat.ne_of_lt (lt_of_lt_of_le ha hN)) _ _⟩


lemma pres_write {n : ℕ} {N : ℕ} {h : Heap n} {a : ℕ}
    (hN : N ≤ h.next) (ha : N ≤ a) (v : Val n) : Pres N h (h.write a v) :=
  ⟨hN, fun _a ha' =>
    Function.update_noteq (Nat.ne_of_lt (lt_of_lt_of_le ha' ha)) _ _⟩


lemma pres_alloc_of {n : ℕ} {N : ℕ} {h h' : Heap n}
    (p : Pres N h h') (v : Val n) : Pres N h (h'.alloc v).1 :=
  pres_trans p (pres_alloc p.1 v)


lemma pres_write_of {n : ℕ} {N : ℕ} {h h' : Heap n} {a : ℕ}
    (p : Pres N h h') (ha : N ≤ a) (v : Val n) : Pres N h (h'.write a v) :=
  pres_trans p (pres_write p.1 ha v)


lemma jacobiHGo_pres {n N : ℕ} {tol : ℚ} {aA ab aDinv aR : ℕ} :
    ∀ (rem : ℕ) {h0 h : Heap n} (ax k : ℕ), Pres N h0 h →
      Pres N h0 (jacobiHGo tol aA ab aDinv aR rem h ax k).1 := by
  intro rem
  induction rem with
  | zero =>
    intro h0 h ax k hp
    simp only [jacobiHGo]
    split
    · exact pres_alloc_of hp _
    · exact pres_alloc_of hp _
  | succ r ih =>
    intro h0 h ax k hp
    simp only [jacobiHGo]
    split
    · exact pres_alloc_of hp _
    · exact ih _ _ (pres_alloc_of hp _)


lemma gsHInner_pres {n N : ℕ} {aA2 ab axold ax : ℕ} (hax : N ≤ ax) :
    ∀ (m : ℕ) {h0 h : Heap n}, Pres N h0 h →
      Pres N h0 (gsHInner aA2 ab axold ax m h) := by
  intro m
  induction m with
  | zero => intro h0 h hp; exact hp
  | succ m ih =>
    intro h0 h hp
    simp only [gsHInner]
    split
    · exact pres_write_of (ih hp) hax _
    · exact ih hp


lemma gsHGo_pres {n N : ℕ} {tol : ℚ} {aA2 ab : ℕ} :
    ∀ (rem : ℕ) {h0 h : Heap n} (ax k : ℕ), Pres N h0 h → N ≤ ax →
      Pres N h0 (gsHGo tol aA2 ab rem h ax k).1 := by
  intro rem
  induction rem with
  | zero =>
    intro h0 h ax k hp hax
    exact gsHInner_pres hax n (pres_alloc_of hp _)
  | succ r ih =>
    intro h0 h ax k hp hax
    simp only [gsHGo]
    split
    · exact gsHInner_pres hax n (pres_alloc_of hp _)
    · exact ih _ _ (gsHInner_pres hax n (pres_alloc_of hp _)) hax


lemma gradientHGo_pres {n N : ℕ} {tol : ℚ} {aA ab : ℕ} :
    ∀ (rem : ℕ) {h0 h : Heap n} (ax ar ap k : ℕ), Pres N h0 h → N ≤ ax →
      Pres N h0 (gradientHGo tol aA ab rem h ax ar ap k).1 := by
  intro rem
  induction rem with
  | zero =>
    intro h0 h ax ar ap k hp hax
    simp only [gradientHGo]
    split
    · exact pres_alloc_of (pres_write_of (pres_alloc_of hp _) hax _) _
    · exact pres_alloc_of (pres_alloc_of (pres_write_of (pres_alloc_of hp _) hax _) _) _
  | succ rem ih =>
    intro h0 h ax ar ap k hp hax
    simp only [gradientHGo]
    split
    · exact pres_alloc_of (pres_write_of (pres_alloc_of hp _) hax _) _
    · exact ih _ _ _ _
        (pres_alloc_of (pres_alloc_of (pres_write_of (pres_alloc_of hp _) hax _) _) _) hax


lemma cgHGo_pres {n N : ℕ} {tol : ℚ} {aA ab : ℕ} :
    ∀ (rem : ℕ) {h0 h : Heap n} (ax ar ap : ℕ) (rsold : ℚ) (k : ℕ),
      Pres N h0 h → N ≤ ax → N ≤ ar →
      Pres N h0 (cgHGo tol aA ab rem h ax ar ap rsold k).1 := by
  intro rem
  induction rem with
  | zero =>
    intro h0 h ax ar ap rsold k hp hax har
    simp only [cgHGo]
    split
    · exact pres_write_of (pres_write_of (pres_alloc_of hp _) hax _) har _
    · exact pres_alloc_of (pres_write_of (pres_write_of (pres_alloc_of hp _) hax _) har _) _
  | succ rem ih =>
    intro h0 h ax ar ap rsold k hp hax har
    simp only [cgHGo]
    split
    · exact pres_write_of (pres_write_of (pres_alloc_of hp _) hax _) har _
    · exact ih _ _ _ _ _
        (pres_alloc_of (pres_write_of (pres_write_of (pres_alloc_of hp _) hax _) har _) _)
        hax har


lemma jacobiH_pres {n : ℕ} (h : Heap n) (aA ab axe : ℕ) (tol : ℚ) (it : ℕ) :
    Pres h.next h (jacobiH h aA ab axe tol it).1 := by
  cases it with
  | zero =>
    simp only [jacobiH]
    apply pres_alloc_of
    apply pres_alloc_of
    apply pres_alloc_of
    apply pres_alloc_of
    exact pres_refl _ _ (le_refl _)
  | succ m =>
    simp only [jacobiH]
    refine jacobiHGo_pres m _ 0 ?_
    apply pres_alloc_of
    apply pres_alloc_of
    apply pres_alloc_of
    apply pres_alloc_of
    exact pres_refl _ _ (le_refl _)


lemma gauss_seidelH_pres {n : ℕ} (h : Heap n) (aA ab axe : ℕ) (tol : ℚ) (it : ℕ) :
    Pres h.next h (gauss_seidelH h aA ab axe tol it).1 := by
  cases it with
  | zero =>
    simp only [gauss_seidelH]
    apply pres_alloc_of
    apply pres_alloc_of
    exact pres_refl _ _ (le_refl _)
  | succ m =>
    simp only [gauss_seidelH]
    refine gsHGo_pres m _ 0 ?_ le_rfl
    apply pres_alloc_of
    apply pres_alloc_of
    exact pres_refl _ _ (le_refl _)


lemma gradientH_pres {n : ℕ} (h : Heap n) (aA ab axe : ℕ) (tol : ℚ) (it : ℕ) :
    Pres h.next h (gradientH h aA ab axe tol it).1 := by
  cases it with
  | zero =>
    simp only [gradientH]
    apply pres_alloc_of
    apply pres_alloc_of
    apply pres_alloc_of
    exact pres_refl _ _ (le_refl _)
  | succ m =>
    simp only [gradientH]
    refine gradientHGo_pres m _ _ _ 0 ?_ le_rfl
    apply pres_alloc_of
    apply pres_alloc_of
    apply pres_alloc_of
    exact pres_refl _ _ (le_refl _)


lemma conjugate_gradientH_pres {n : ℕ} (h : Heap n) (aA ab axe : ℕ) (tol : ℚ)
    (it : ℕ) : Pres h.next h (conjugate_gradientH h aA ab axe tol it).1 := by
  cases it with
  | zero =>
    simp only [conjugate_gradientH]
    apply pres_alloc_of
    apply pres_alloc_of
    apply pres_alloc_of
    exact pres_refl _ _ (le_refl _)
  | succ m =>
    simp only [conjugate_gradientH]
    refine cgHGo_pres m _ _ _ _ 0 ?_ le_rfl (Nat.le_succ _)
    apply pres_alloc_of
    apply pres_alloc_of
    apply pres_alloc_of
    exact pres_refl _ _ (le_refl _)



lemma heap_next_alloc {n : ℕ} (h : Heap n) (v : Val n) :
    (h.alloc v).1.next = h.next + 1 := rfl


lemma heap_next_write {n : ℕ} (h : Heap n) (a : ℕ) (v : Val n) :
    (h.write a v).next = h.next := rfl


lemma heap_addr_alloc {n : ℕ} (h : Heap n) (v : Val n) :
    (h.alloc v).2 = h.next := rfl


lemma readVec_alloc_eq {n : ℕ} (h : Heap n) (v : Vec n) {a : ℕ}
    (ha : a = h.next) : (h.alloc (Val.vec v)).1.readVec a = v := by
  subst ha
  exact readVec_alloc_self h v


lemma readMat_alloc_eq {n : ℕ} (h : Heap n) (M : Mat n) {a : ℕ}
    (ha : a = h.next) : (h.alloc (Val.mat M)).1.readMat a = M := by
  subst ha
  exact readMat_alloc_self h M


lemma readVec_write_eq {n : ℕ} (h : Heap n) (v : Vec n) {a a' : ℕ}
    (ha : a' = a) : (h.write a (Val.vec v)).readVec a' = v := by
  subst ha
  exact readVec_write_self h a' v


lemma readVec_pres {n N : ℕ} {h h' : Heap n} (p : Pres N h h') {a : ℕ}
    (ha : a < N) : h'.readVec a = h.readVec a := by
  unfold Heap.readVec
  rw [p.2 a ha]


lemma readMat_pres {n N : ℕ} {h h' : Heap n} (p : Pres N h h') {a : ℕ}
    (ha : a < N) : h'.readMat a = h.readMat a := by
  unfold Heap.readMat
  rw [p.2 a ha]


/-! ### The heap traces compute the same results as the pure embeddings

Cross-validation of the two models: reading the solution address of a heap
trace in its final heap yields exactly what the pure solver returns, so the
heap traces are the same algorithms and the frame property proved below is
about the code embedded above. -/

lemma jacobiHGo_agrees {n : ℕ} (tol : ℚ) (aA ab aDinv aR : ℕ) (A : Mat n)
    (b : Vec n) :
    ∀ (rem : ℕ) (h : Heap n) (ax k : ℕ) (x : Vec n),
      aA < h.next → ab < h.next → aDinv < h.next → aR < h.next → ax < h.next →
      h.readMat aA = A → h.readVec ab = b →
      h.readMat aDinv = jacobiDinv A → h.readMat aR = jacobiR A →
      h.readVec ax = x →
      ((jacobiHGo tol aA ab aDinv aR rem h ax k).1.readVec
          (jacobiHGo tol aA ab aDinv aR rem h ax k).2.1,
        (jacobiHGo tol aA ab aDinv aR rem h ax k).2.2)
        = jacobiGo A b tol rem x k := by
  intro rem
  induction rem with
  | zero =>
    intro h ax k x hA hb hDi hR hax rA rb rDi rR rx
    simp only [jacobiHGo, jacobiGo, jacobiStep]
    rw [rDi, rR, rb, rx,
      readMat_alloc_ne _ _ (Nat.ne_of_lt hA), rA,
      readVec_alloc_ne _ _ (Nat.ne_of_lt hb), rb, readVec_alloc_self]
    split
    · rw [readVec_alloc_ne _ _ (Nat.ne_of_lt hax), rx]
    · rw [readVec_alloc_self]
  | succ r ih =>
    intro h ax k x hA hb hDi hR hax rA rb rDi rR rx
    simp only [jacobiHGo, jacobiGo, jacobiStep]
    rw [rDi, rR, rb, rx,
      readMat_alloc_ne _ _ (Nat.ne_of_lt hA), rA,
      readVec_alloc_ne _ _ (Nat.ne_of_lt hb), rb, readVec_alloc_self]
    split
    · rw [readVec_alloc_ne _ _ (Nat.ne_of_lt hax), rx]
    · apply ih
      · exact Nat.lt_succ_of_lt hA
      · exact Nat.lt_succ_of_lt hb
      · exact Nat.lt_succ_of_lt hDi
      · exact Nat.lt_succ_of_lt hR
      · exact Nat.lt_succ_self _
      · rw [readMat_alloc_ne _ _ (Nat.ne_of_lt hA)]; exact rA
      · rw [readVec_alloc_ne _ _ (Nat.ne_of_lt hb)]; exact rb
      · rw [readMat_alloc_ne _ _ (Nat.ne_of_lt hDi)]; exact rDi
      · rw [readMat_alloc_ne _ _ (Nat.ne_of_lt hR)]; exact rR
      · exact readVec_alloc_self _ _


/-- The Jacobi heap trace returns the pure `jacobi` result: same iteration
count and error, and the solution address holds the pure solution vector. -/
theorem jacobiH_agrees {n : ℕ} (h : Heap n) (aA ab axe : ℕ) (tol : ℚ) (it : ℕ)
    (hA : aA < h.next) (hb : ab < h.next) (hxe : axe < h.next) :
    Option.map
      (fun r => ((jacobiH h aA ab axe tol it).1.readVec r.1, r.2.1, r.2.2))
      (jacobiH h aA ab axe tol it).2
      = jacobi (h.readMat aA) (h.readVec ab) (h.readVec axe) tol it := by
  cases it with
  | zero => rfl
  | succ m =>
    have hp4 : Pres h.next h
        ((((h.alloc (Val.vec 0)).1.alloc
            (Val.mat (diagMatrix ((h.alloc (Val.vec 0)).1.readMat aA)))).1.alloc
            (Val.mat (jacobiDinv ((h.alloc (Val.vec 0)).1.readMat aA)))).1.alloc
            (Val.mat (jacobiR ((h.alloc (Val.vec 0)).1.readMat aA)))).1 :=
      pres_alloc_of (pres_alloc_of (pres_alloc_of
        (pres_alloc (le_refl h.next) (Val.vec 0))
        (Val.mat (diagMatrix ((h.alloc (Val.vec 0)).1.readMat aA))))
        (Val.mat (jacobiDinv ((h.alloc (Val.vec 0)).1.readMat aA))))
        (Val.mat (jacobiR ((h.alloc (Val.vec 0)).1.readMat aA)))
    have hgo := jacobiHGo_agrees tol aA ab
      (((h.alloc (Val.vec 0)).1.alloc
          (Val.mat (diagMatrix ((h.alloc (Val.vec 0)).1.readMat aA)))).1.alloc
          (Val.mat (jacobiDinv ((h.alloc (Val.vec 0)).1.readMat aA)))).2
      ((((h.alloc (Val.vec 0)).1.alloc
          (Val.mat (diagMatrix ((h.alloc (Val.vec 0)).1.readMat aA)))).1.alloc
          (Val.mat (jacobiDinv ((h.alloc (Val.vec 0)).1.readMat aA)))).1.alloc
          (Val.mat (jacobiR ((h.alloc (Val.vec 0)).1.readMat aA)))).2
      (h.readMat aA) (h.readVec ab) m
      ((((h.alloc (Val.vec 0)).1.alloc
          (Val.mat (diagMatrix ((h.alloc (Val.vec 0)).1.readMat aA)))).1.alloc
          (Val.mat (jacobiDinv ((h.alloc (Val.vec 0)).1.readMat aA)))).1.alloc
          (Val.mat (jacobiR ((h.alloc (Val.vec 0)).1.readMat aA)))).1
      (h.alloc (Val.vec 0)).2 0 0
      (Nat.lt_succ_of_lt (Nat.lt_succ_of_lt (Nat.lt_succ_of_lt (Nat.lt_succ_of_lt hA))))
      (Nat.lt_succ_of_lt (Nat.lt_succ_of_lt (Nat.lt_succ_of_lt (Nat.lt_succ_of_lt hb))))
      (Nat.lt_succ_of_lt (Nat.lt_succ_self _))
      (Nat.lt_succ_self _)
      (Nat.lt_succ_of_lt (Nat.lt_succ_of_lt (Nat.lt_succ_of_lt (Nat.lt_succ_self _))))
      (by rw [readMat_alloc_ne _ _
                (Nat.ne_of_lt (Nat.lt_succ_of_lt (Nat.lt_succ_of_lt (Nat.lt_succ_of_lt hA)))),
              readMat_alloc_ne _ _
                (Nat.ne_of_lt (Nat.lt_succ_of_lt (Nat.lt_succ_of_lt hA))),
              readMat_alloc_ne _ _ (Nat.ne_of_lt (Nat.lt_succ_of_lt hA)),
              readMat_alloc_ne _ _ (Nat.ne_of_lt hA)])
      (by rw [readVec_alloc_ne _ _
                (Nat.ne_of_lt (Nat.lt_succ_of_lt (Nat.lt_succ_of_lt (Nat.lt_succ_of_lt hb)))),
              readVec_alloc_ne _ _
                (Nat.ne_of_lt (Nat.lt_succ_of_lt (Nat.lt_succ_of_lt hb))),
              readVec_alloc_ne _ _ (Nat.ne_of_lt (Nat.lt_succ_of_lt hb)),
              readVec_alloc_ne _ _ (Nat.ne_of_lt hb)])
      (by rw [readMat_alloc_ne _ _ (Nat.ne_of_lt (Nat.lt_succ_self _)),
              readMat_alloc_self,
              readMat_alloc_ne _ _ (Nat.ne_of_lt hA)])
      (by rw [readMat_alloc_self, readMat_alloc_ne _ _ (Nat.ne_of_lt hA)])
      (by rw [readVec_alloc_ne _ _
                (Nat.ne_of_lt (Nat.lt_succ_of_lt (Nat.lt_succ_of_lt (Nat.lt_succ_self _)))),
              readVec_alloc_ne _ _
                (Nat.ne_of_lt (Nat.lt_succ_of_lt (Nat.lt_succ_self _))),
              readVec_alloc_ne _ _ (Nat.ne_of_lt (Nat.lt_succ_self _)),
              readVec_alloc_self])
    simp only [jacobiH, jacobi, Option.map]
    rw [← hgo]
    dsimp only
    rw [readVec_pres (jacobiHGo_pres m ((h.alloc (Val.vec 0)).2) 0 hp4) hxe]


lemma gradientHGo_agrees {n : ℕ} (tol : ℚ) (aA ab : ℕ) (A : Mat n) (b : Vec n) :
    ∀ (rem : ℕ) (h : Heap n) (ax ar ap k : ℕ) (x r p : Vec n),
      aA < h.next → ab < h.next → ax < h.next → ar < h.next → ap < h.next →
      ax ≠ aA → ax ≠ ab → ax ≠ ar → ax ≠ ap →
      h.readMat aA = A → h.readVec ab = b →
      h.readVec ax = x → h.readVec ar = r → h.readVec ap = p →
      ((gradientHGo tol aA ab rem h ax ar ap k).1.readVec
          (gradientHGo tol aA ab rem h ax ar ap k).2.1,
        (gradientHGo tol aA ab rem h ax ar ap k).2.2)
        = gradGo A b tol rem x r p k := by
  intro rem
  induction rem with
  | zero =>
    intro h ax ar ap k x r p hA hb hax har hap nA nb nr np rA rb rx rr rp
    have d1 : aA ≠ h.next := Nat.ne_of_lt hA
    have d2 : ab ≠ h.next := Nat.ne_of_lt hb
    have d3 : ax ≠ h.next := Nat.ne_of_lt hax
    have d4 : ar ≠ h.next := Nat.ne_of_lt har
    have d5 : ap ≠ h.next := Nat.ne_of_lt hap
    have nbs : ab ≠ ax := Ne.symm nb
    have nrs : ar ≠ ax := Ne.symm nr
    have nps : ap ≠ ax := Ne.symm np
    have hns : h.next ≠ ax := Ne.symm d3
    have e1 : ab ≠ h.next + 1 := by omega
    have e2 : ax ≠ h.next + 1 := by omega
    have e3 : ar ≠ h.next + 1 := by omega
    have e4 : ap ≠ h.next + 1 := by omega
    have e5 : ax ≠ h.next + 2 := by omega
    simp only [gradientHGo, gradGo, gradNext, heap_next_alloc, heap_next_write,
      heap_addr_alloc, readVec_alloc_eq, readVec_alloc_ne, readMat_alloc_ne,
      readVec_write_eq, readVec_write_ne, readMat_write_ne,
      d1, d2, d3, d4, d5, nbs, nrs, nps, hns, e1, e2, e3, e4, e5, ne_eq,
      not_false_iff, rA, rb, rx, rr, rp]
    split
    · dsimp only
      simp only [heap_next_alloc, heap_next_write, heap_addr_alloc,
        readVec_alloc_ne, readVec_write_eq, e2, ne_eq, not_false_iff]
    · dsimp only
      simp only [heap_next_alloc, heap_next_write, heap_addr_alloc,
        readVec_alloc_ne, readVec_write_eq, e2, e5, ne_eq, not_false_iff]
  | succ rem ih =>
    intro h ax ar ap k x r p hA hb hax har hap nA nb nr np rA rb rx rr rp
    have d1 : aA ≠ h.next := Nat.ne_of_lt hA
    have d2 : ab ≠ h.next := Nat.ne_of_lt hb
    have d3 : ax ≠ h.next := Nat.ne_of_lt hax
    have d4 : ar ≠ h.next := Nat.ne_of_lt har
    have d5 : ap ≠ h.next := Nat.ne_of_lt hap
    have nbs : ab ≠ ax := Ne.symm nb
    have nrs : ar ≠ ax := Ne.symm nr
    have nps : ap ≠ ax := Ne.symm np
    have nAs : aA ≠ ax := Ne.symm nA
    have hns : h.next ≠ ax := Ne.symm d3
    have e1 : ab ≠ h.next + 1 := by omega
    have e2 : ax ≠ h.next + 1 := by omega
    have e3 : ar ≠ h.next + 1 := by omega
    have e4 : ap ≠ h.next + 1 := by omega
    have e5 : ax ≠ h.next + 2 := by omega
    have e6 : aA ≠ h.next + 1 := by omega
    have e7 : aA ≠ h.next + 2 := by omega
    have e8 : ab ≠ h.next + 2 := by omega
    have f1 : h.next + 1 ≠ h.next + 2 := by omega
    simp only [gradientHGo, gradGo, gradNext, heap_next_alloc, heap_next_write,
      heap_addr_alloc, readVec_alloc_eq, readVec_alloc_ne, readMat_alloc_ne,
      readVec_write_eq, readVec_write_ne, readMat_write_ne,
      d1, d2, d3, d4, d5, nbs, nrs, nps, nAs, hns, e1, e2, e3, e4, e5, e6, e7, e8,
      ne_eq, not_false_iff, rA, rb, rx, rr, rp]
    split
    · dsimp only
      simp only [heap_next_alloc, heap_next_write, heap_addr_alloc,
        readVec_alloc_ne, readVec_write_eq, e2, ne_eq, not_false_iff]
    · apply ih
      · simp only [heap_next_alloc, heap_next_write]
        omega
      · simp only [heap_next_alloc, heap_next_write]
        omega
      · simp only [heap_next_alloc, heap_next_write]
        omega
      · simp only [heap_next_alloc, heap_next_write]
        omega
      · simp only [heap_next_alloc, heap_next_write]
        omega
      · exact nA
      · exact nb
      · omega
      · omega
      · simp only [heap_next_alloc, heap_next_write, heap_addr_alloc,
          readMat_alloc_ne, readMat_write_ne, e7, e6, nAs, d1, ne_eq, not_false_iff]
        exact rA
      · simp only [heap_next_alloc, heap_next_write, heap_addr_alloc,
          readVec_alloc_ne, readVec_write_ne, e8, e1, nbs, d2, ne_eq, not_false_iff]
        exact rb
      · simp only [heap_next_alloc, heap_next_write, heap_addr_alloc,
          readVec_alloc_ne, readVec_write_eq, e5, e2, ne_eq, not_false_iff]
      · simp only [heap_next_alloc, heap_next_write, heap_addr_alloc,
          readVec_alloc_eq, readVec_alloc_ne, f1, ne_eq, not_false_iff]
      · simp only [heap_next_alloc, heap_next_write, heap_addr_alloc,
          readVec_alloc_eq, ne_eq, not_false_iff]


/-- The gradient-method heap trace returns the pure `gradient` result. -/
theorem gradientH_agrees {n : ℕ} (h : Heap n) (aA ab axe : ℕ) (tol : ℚ) (it : ℕ)
    (hA : aA < h.next) (hb : ab < h.next) (hxe : axe < h.next) :
    Option.map
      (fun r => ((gradientH h aA ab axe tol it).1.readVec r.1, r.2.1, r.2.2))
      (gradientH h aA ab axe tol it).2
      = gradient (h.readMat aA) (h.readVec ab) (h.readVec axe) tol it := by
  cases it with
  | zero => rfl
  | succ m =>
    have g1 : aA ≠ h.next := Nat.ne_of_lt hA
    have g2 : aA ≠ h.next + 1 := by omega
    have g3 : aA ≠ h.next + 2 := by omega
    have g4 : ab ≠ h.next := Nat.ne_of_lt hb
    have g5 : ab ≠ h.next + 1 := by omega
    have g6 : ab ≠ h.next + 2 := by omega
    have g7 : h.next + 1 ≠ h.next + 2 := by omega
    have g8 : h.next ≠ h.next + 1 := by omega
    have g9 : h.next ≠ h.next + 2 := by omega
    have hp3 : Pres h.next h (((h.alloc (Val.vec 0)).1.alloc (Val.vec ((h.alloc (Val.vec 0)).1.readVec ab - ((h.alloc (Val.vec 0)).1.readMat aA).mulVec ((h.alloc (Val.vec 0)).1.readVec (h.alloc (Val.vec 0)).2)))).1.alloc (Val.vec (((h.alloc (Val.vec 0)).1.alloc (Val.vec ((h.alloc (Val.vec 0)).1.readVec ab - ((h.alloc (Val.vec 0)).1.readMat aA).mulVec ((h.alloc (Val.vec 0)).1.readVec (h.alloc (Val.vec 0)).2)))).1.readVec ((h.alloc (Val.vec 0)).1.alloc (Val.vec ((h.alloc (Val.vec 0)).1.readVec ab - ((h.alloc (Val.vec 0)).1.readMat aA).mulVec ((h.alloc (Val.vec 0)).1.readVec (h.alloc (Val.vec 0)).2)))).2))).1 :=
      pres_alloc_of (pres_alloc_of
        (pres_alloc (le_refl h.next) (Val.vec 0)) (Val.vec ((h.alloc (Val.vec 0)).1.readVec ab - ((h.alloc (Val.vec 0)).1.readMat aA).mulVec ((h.alloc (Val.vec 0)).1.readVec (h.alloc (Val.vec 0)).2)))) (Val.vec (((h.alloc (Val.vec 0)).1.alloc (Val.vec ((h.alloc (Val.vec 0)).1.readVec ab - ((h.alloc (Val.vec 0)).1.readMat aA).mulVec ((h.alloc (Val.vec 0)).1.readVec (h.alloc (Val.vec 0)).2)))).1.readVec ((h.alloc (Val.vec 0)).1.alloc (Val.vec ((h.alloc (Val.vec 0)).1.readVec ab - ((h.alloc (Val.vec 0)).1.readMat aA).mulVec ((h.alloc (Val.vec 0)).1.readVec (h.alloc (Val.vec 0)).2)))).2))
    have hgo := gradientHGo_agrees tol aA ab (h.readMat aA) (h.readVec ab) m
      (((h.alloc (Val.vec 0)).1.alloc (Val.vec ((h.alloc (Val.vec 0)).1.readVec ab - ((h.alloc (Val.vec 0)).1.readMat aA).mulVec ((h.alloc (Val.vec 0)).1.readVec (h.alloc (Val.vec 0)).2)))).1.alloc (Val.vec (((h.alloc (Val.vec 0)).1.alloc (Val.vec ((h.alloc (Val.vec 0)).1.readVec ab - ((h.alloc (Val.vec 0)).1.readMat aA).mulVec ((h.alloc (Val.vec 0)).1.readVec (h.alloc (Val.vec 0)).2)))).1.readVec ((h.alloc (Val.vec 0)).1.alloc (Val.vec ((h.alloc (Val.vec 0)).1.readVec ab - ((h.alloc (Val.vec 0)).1.readMat aA).mulVec ((h.alloc (Val.vec 0)).1.readVec (h.alloc (Val.vec 0)).2)))).2))).1 (h.alloc (Val.vec 0)).2 ((h.alloc (Val.vec 0)).1.alloc (Val.vec ((h.alloc (Val.vec 0)).1.readVec ab - ((h.alloc (Val.vec 0)).1.readMat aA).mulVec ((h.alloc (Val.vec 0)).1.readVec (h.alloc (Val.vec 0)).2)))).2 (((h.alloc (Val.vec 0)).1.alloc (Val.vec ((h.alloc (Val.vec 0)).1.readVec ab - ((h.alloc (Val.vec 0)).1.readMat aA).mulVec ((h.alloc (Val.vec 0)).1.readVec (h.alloc (Val.vec 0)).2)))).1.alloc (Val.vec (((h.alloc (Val.vec 0)).1.alloc (Val.vec ((h.alloc (Val.vec 0)).1.readVec ab - ((h.alloc (Val.vec 0)).1.readMat aA).mulVec ((h.alloc (Val.vec 0)).1.readVec (h.alloc (Val.vec 0)).2)))).1.readVec ((h.alloc (Val.vec 0)).1.alloc (Val.vec ((h.alloc (Val.vec 0)).1.readVec ab - ((h.alloc (Val.vec 0)).1.readMat aA).mulVec ((h.alloc (Val.vec 0)).1.readVec (h.alloc (Val.vec 0)).2)))).2))).2 0
      (0 : Vec n) (h.readVec ab - (h.readMat aA).mulVec 0) (h.readVec ab - (h.readMat aA).mulVec 0)
      (by simp only [heap_next_alloc, heap_next_write]
          omega)
      (by simp only [heap_next_alloc, heap_next_write]
          omega)
      (by simp only [heap_next_alloc, heap_next_write, heap_addr_alloc]
          omega)
      (by simp only [heap_next_alloc, heap_next_write, heap_addr_alloc]
          omega)
      (by simp only [heap_next_alloc, heap_next_write, heap_addr_alloc]
          omega)
      (by simp only [heap_addr_alloc, heap_next_alloc, heap_next_write]
          omega)
      (by simp only [heap_addr_alloc, heap_next_alloc, heap_next_write]
          omega)
      (by simp only [heap_addr_alloc, heap_next_alloc, heap_next_write]
          omega)
      (by simp only [heap_addr_alloc, heap_next_alloc, heap_next_write]
          omega)
      (by
        simp only [heap_next_alloc, heap_next_write, heap_addr_alloc, readVec_alloc_eq, readVec_alloc_ne, readMat_alloc_ne, readMat_alloc_eq, ne_eq, not_false_iff, g1, g2, g3, g4, g5, g6, g7, g8, g9])
      (by
        simp only [heap_next_alloc, heap_next_write, heap_addr_alloc, readVec_alloc_eq, readVec_alloc_ne, readMat_alloc_ne, readMat_alloc_eq, ne_eq, not_false_iff, g1, g2, g3, g4, g5, g6, g7, g8, g9])
      (by
        simp only [heap_next_alloc, heap_next_write, heap_addr_alloc, readVec_alloc_eq, readVec_alloc_ne, readMat_alloc_ne, readMat_alloc_eq, ne_eq, not_false_iff, g1, g2, g3, g4, g5, g6, g7, g8, g9])
      (by
        simp only [heap_next_alloc, heap_next_write, heap_addr_alloc, readVec_alloc_eq, readVec_alloc_ne, readMat_alloc_ne, readMat_alloc_eq, ne_eq, not_false_iff, g1, g2, g3, g4, g5, g6, g7, g8, g9])
      (by
        simp only [heap_next_alloc, heap_next_write, heap_addr_alloc, readVec_alloc_eq, readVec_alloc_ne, readMat_alloc_ne, readMat_alloc_eq, ne_eq, not_false_iff, g1, g2, g3, g4, g5, g6, g7, g8, g9])
    simp only [gradientH, gradient, Option.map]
    rw [← hgo]
    dsimp only
    rw [readVec_pres (gradientHGo_pres m (h.alloc (Val.vec 0)).2 ((h.alloc (Val.vec 0)).1.alloc (Val.vec ((h.alloc (Val.vec 0)).1.readVec ab - ((h.alloc (Val.vec 0)).1.readMat aA).mulVec ((h.alloc (Val.vec 0)).1.readVec (h.alloc (Val.vec 0)).2)))).2 (((h.alloc (Val.vec 0)).1.alloc (Val.vec ((h.alloc (Val.vec 0)).1.readVec ab - ((h.alloc (Val.vec 0)).1.readMat aA).mulVec ((h.alloc (Val.vec 0)).1.readVec (h.alloc (Val.vec 0)).2)))).1.alloc (Val.vec (((h.alloc (Val.vec 0)).1.alloc (Val.vec ((h.alloc (Val.vec 0)).1.readVec ab - ((h.alloc (Val.vec 0)).1.readMat aA).mulVec ((h.alloc (Val.vec 0)).1.readVec (h.alloc (Val.vec 0)).2)))).1.readVec ((h.alloc (Val.vec 0)).1.alloc (Val.vec ((h.alloc (Val.vec 0)).1.readVec ab - ((h.alloc (Val.vec 0)).1.readMat aA).mulVec ((h.alloc (Val.vec 0)).1.readVec (h.alloc (Val.vec 0)).2)))).2))).2 0 hp3 (le_refl h.next)) hxe]


lemma cgHGo_agrees {n : ℕ} (tol : ℚ) (aA ab : ℕ) (A : Mat n) (b : Vec n) :
    ∀ (rem : ℕ) (h : Heap n) (ax ar ap : ℕ) (rsold : ℚ) (k : ℕ) (x r p : Vec n),
      aA < h.next → ab < h.next → ax < h.next → ar < h.next → ap < h.next →
      ax ≠ aA → ax ≠ ab → ax ≠ ar → ax ≠ ap →
      ar ≠ aA → ar ≠ ab → ar ≠ ap →
      h.readMat aA = A → h.readVec ab = b →
      h.readVec ax = x → h.readVec ar = r → h.readVec ap = p →
      ((cgHGo tol aA ab rem h ax ar ap rsold k).1.readVec
          (cgHGo tol aA ab rem h ax ar ap rsold k).2.1,
        (cgHGo tol aA ab rem h ax ar ap rsold k).2.2)
        = cgGo A b tol rem x r p rsold k := by
  intro rem
  induction rem with
  | zero =>
    intro h ax ar ap rsold k x r p hA hb hax har hap nA nb nr np mA mb mp rA rb rx rr rp
    have d1 : aA ≠ h.next := Nat.ne_of_lt hA
    have d2 : ab ≠ h.next := Nat.ne_of_lt hb
    have d3 : ax ≠ h.next := Nat.ne_of_lt hax
    have d4 : ar ≠ h.next := Nat.ne_of_lt har
    have d5 : ap ≠ h.next := Nat.ne_of_lt hap
    have nbs : ab ≠ ax := Ne.symm nb
    have nrs : ar ≠ ax := Ne.symm nr
    have nps : ap ≠ ax := Ne.symm np
    have mbs : ab ≠ ar := Ne.symm mb
    have mps : ap ≠ ar := Ne.symm mp
    have hns : h.next ≠ ax := Ne.symm d3
    have hnr : h.next ≠ ar := Ne.symm d4
    have e2 : ax ≠ h.next + 1 := by omega
    simp only [cgHGo, cgGo, cgNext, heap_next_alloc, heap_next_write,
      heap_addr_alloc, readVec_alloc_eq, readVec_alloc_ne, readMat_alloc_ne,
      readVec_write_eq, readVec_write_ne, readMat_write_ne,
      d1, d2, d3, d4, d5, nbs, nrs, nps, mbs, mps, hns, hnr, nr, e2, ne_eq,
      not_false_iff, rA, rb, rx, rr, rp]
    split
    · dsimp only
      simp only [heap_next_alloc, heap_next_write, heap_addr_alloc,
        readVec_write_eq, readVec_write_ne, nr, ne_eq, not_false_iff]
    · dsimp only
      simp only [heap_next_alloc, heap_next_write, heap_addr_alloc,
        readVec_alloc_ne, readVec_write_eq, readVec_write_ne, nr, e2, ne_eq,
        not_false_iff]
  | succ rem ih =>
    intro h ax ar ap rsold k x r p hA hb hax har hap nA nb nr np mA mb mp rA rb rx rr rp
    have d1 : aA ≠ h.next := Nat.ne_of_lt hA
    have d2 : ab ≠ h.next := Nat.ne_of_lt hb
    have d3 : ax ≠ h.next := Nat.ne_of_lt hax
    have d4 : ar ≠ h.next := Nat.ne_of_lt har
    have d5 : ap ≠ h.next := Nat.ne_of_lt hap
    have nbs : ab ≠ ax := Ne.symm nb
    have nrs : ar ≠ ax := Ne.symm nr
    have nps : ap ≠ ax := Ne.symm np
    have nAs : aA ≠ ax := Ne.symm nA
    have mAs : aA ≠ ar := Ne.symm mA
    have mbs : ab ≠ ar := Ne.symm mb
    have mps : ap ≠ ar := Ne.symm mp
    have hns : h.next ≠ ax := Ne.symm d3
    have hnr : h.next ≠ ar := Ne.symm d4
    have e2 : ax ≠ h.next + 1 := by omega
    have eA1 : aA ≠ h.next + 1 := by omega
    have eb1 : ab ≠ h.next + 1 := by omega
    have er1 : ar ≠ h.next + 1 := by omega
    simp only [cgHGo, cgGo, cgNext, heap_next_alloc, heap_next_write,
      heap_addr_alloc, readVec_alloc_eq, readVec_alloc_ne, readMat_alloc_ne,
      readVec_write_eq, readVec_write_ne, readMat_write_ne,
      d1, d2, d3, d4, d5, nbs, nrs, nps, mbs, mps, hns, hnr, nr, e2, ne_eq,
      not_false_iff, rA, rb, rx, rr, rp]
    split
    · dsimp only
      simp only [heap_next_alloc, heap_next_write, heap_addr_alloc,
        readVec_write_eq, readVec_write_ne, nr, ne_eq, not_false_iff]
    · apply ih
      · simp only [heap_next_alloc, heap_next_write]
        omega
      · simp only [heap_next_alloc, heap_next_write]
        omega
      · simp only [heap_next_alloc, heap_next_write]
        omega
      · simp only [heap_next_alloc, heap_next_write]
        omega
      · simp only [heap_next_alloc, heap_next_write]
        omega
      · exact nA
      · exact nb
      · exact nr
      · omega
      · exact mA
      · exact mb
      · omega
      · simp only [heap_next_alloc, heap_next_write, heap_addr_alloc,
          readMat_alloc_ne, readMat_write_ne, eA1, mAs, nAs, d1, ne_eq,
          not_false_iff]
        exact rA
      · simp only [heap_next_alloc, heap_next_write, heap_addr_alloc,
          readVec_alloc_ne, readVec_write_ne, eb1, mbs, nbs, d2, ne_eq,
          not_false_iff]
        exact rb
      · simp only [heap_next_alloc, heap_next_write, heap_addr_alloc,
          readVec_alloc_ne, readVec_write_eq, readVec_write_ne, nr, e2, ne_eq,
          not_false_iff]
      · simp only [heap_next_alloc, heap_next_write, heap_addr_alloc,
          readVec_alloc_ne, readVec_write_eq, er1, ne_eq, not_false_iff]
      · simp only [heap_next_alloc, heap_next_write, heap_addr_alloc,
          readVec_alloc_eq, ne_eq, not_false_iff]


/-- The conjugate-gradient heap trace returns the pure `conjugate_gradient`
result. -/
theorem conjugate_gradientH_agrees {n : ℕ} (h : Heap n) (aA ab axe : ℕ)
    (tol : ℚ) (it : ℕ)
    (hA : aA < h.next) (hb : ab < h.next) (hxe : axe < h.next) :
    Option.map
      (fun r => ((conjugate_gradientH h aA ab axe tol it).1.readVec r.1, r.2.1, r.2.2))
      (conjugate_gradientH h aA ab axe tol it).2
      = conjugate_gradient (h.readMat aA) (h.readVec ab) (h.readVec axe) tol it := by
  cases it with
  | zero => rfl
  | succ m =>
    have g1 : aA ≠ h.next := Nat.ne_of_lt hA
    have g2 : aA ≠ h.next + 1 := by omega
    have g3 : aA ≠ h.next + 2 := by omega
    have g4 : ab ≠ h.next := Nat.ne_of_lt hb
    have g5 : ab ≠ h.next + 1 := by omega
    have g6 : ab ≠ h.next + 2 := by omega
    have g7 : h.next + 1 ≠ h.next + 2 := by omega
    have g8 : h.next ≠ h.next + 1 := by omega
    have g9 : h.next ≠ h.next + 2 := by omega
    have hp3 : Pres h.next h (((h.alloc (Val.vec 0)).1.alloc (Val.vec ((h.alloc (Val.vec 0)).1.readVec ab - ((h.alloc (Val.vec 0)).1.readMat aA).mulVec ((h.alloc (Val.vec 0)).1.readVec (h.alloc (Val.vec 0)).2)))).1.alloc (Val.vec (((h.alloc (Val.vec 0)).1.alloc (Val.vec ((h.alloc (Val.vec 0)).1.readVec ab - ((h.alloc (Val.vec 0)).1.readMat aA).mulVec ((h.alloc (Val.vec 0)).1.readVec (h.alloc (Val.vec 0)).2)))).1.readVec ((h.alloc (Val.vec 0)).1.alloc (Val.vec ((h.alloc (Val.vec 0)).1.readVec ab - ((h.alloc (Val.vec 0)).1.readMat aA).mulVec ((h.alloc (Val.vec 0)).1.readVec (h.alloc (Val.vec 0)).2)))).2))).1 :=
      pres_alloc_of (pres_alloc_of
        (pres_alloc (le_refl h.next) (Val.vec 0)) (Val.vec ((h.alloc (Val.vec 0)).1.readVec ab - ((h.alloc (Val.vec 0)).1.readMat aA).mulVec ((h.alloc (Val.vec 0)).1.readVec (h.alloc (Val.vec 0)).2)))) (Val.vec (((h.alloc (Val.vec 0)).1.alloc (Val.vec ((h.alloc (Val.vec 0)).1.readVec ab - ((h.alloc (Val.vec 0)).1.readMat aA).mulVec ((h.alloc (Val.vec 0)).1.readVec (h.alloc (Val.vec 0)).2)))).1.readVec ((h.alloc (Val.vec 0)).1.alloc (Val.vec ((h.alloc (Val.vec 0)).1.readVec ab - ((h.alloc (Val.vec 0)).1.readMat aA).mulVec ((h.alloc (Val.vec 0)).1.readVec (h.alloc (Val.vec 0)).2)))).2))
    have hrs : (((h.alloc (Val.vec 0)).1.alloc (Val.vec ((h.alloc (Val.vec 0)).1.readVec ab - ((h.alloc (Val.vec 0)).1.readMat aA).mulVec ((h.alloc (Val.vec 0)).1.readVec (h.alloc (Val.vec 0)).2)))).1.alloc (Val.vec (((h.alloc (Val.vec 0)).1.alloc (Val.vec ((h.alloc (Val.vec 0)).1.readVec ab - ((h.alloc (Val.vec 0)).1.readMat aA).mulVec ((h.alloc (Val.vec 0)).1.readVec (h.alloc (Val.vec 0)).2)))).1.readVec ((h.alloc (Val.vec 0)).1.alloc (Val.vec ((h.alloc (Val.vec 0)).1.readVec ab - ((h.alloc (Val.vec 0)).1.readMat aA).mulVec ((h.alloc (Val.vec 0)).1.readVec (h.alloc (Val.vec 0)).2)))).2))).1.readVec ((h.alloc (Val.vec 0)).1.alloc (Val.vec ((h.alloc (Val.vec 0)).1.readVec ab - ((h.alloc (Val.vec 0)).1.readMat aA).mulVec ((h.alloc (Val.vec 0)).1.readVec (h.alloc (Val.vec 0)).2)))).2 = (h.readVec ab - (h.readMat aA).mulVec 0) := by
      simp only [heap_next_alloc, heap_next_write, heap_addr_alloc, readVec_alloc_eq, readVec_alloc_ne, readMat_alloc_ne, readMat_alloc_eq, ne_eq, not_false_iff, g1, g2, g3, g4, g5, g6, g7, g8, g9]
    have hgo := cgHGo_agrees tol aA ab (h.readMat aA) (h.readVec ab) m
      (((h.alloc (Val.vec 0)).1.alloc (Val.vec ((h.alloc (Val.vec 0)).1.readVec ab - ((h.alloc (Val.vec 0)).1.readMat aA).mulVec ((h.alloc (Val.vec 0)).1.readVec (h.alloc (Val.vec 0)).2)))).1.alloc (Val.vec (((h.alloc (Val.vec 0)).1.alloc (Val.vec ((h.alloc (Val.vec 0)).1.readVec ab - ((h.alloc (Val.vec 0)).1.readMat aA).mulVec ((h.alloc (Val.vec 0)).1.readVec (h.alloc (Val.vec 0)).2)))).1.readVec ((h.alloc (Val.vec 0)).1.alloc (Val.vec ((h.alloc (Val.vec 0)).1.readVec ab - ((h.alloc (Val.vec 0)).1.readMat aA).mulVec ((h.alloc (Val.vec 0)).1.readVec (h.alloc (Val.vec 0)).2)))).2))).1 (h.alloc (Val.vec 0)).2 ((h.alloc (Val.vec 0)).1.alloc (Val.vec ((h.alloc (Val.vec 0)).1.readVec ab - ((h.alloc (Val.vec 0)).1.readMat aA).mulVec ((h.alloc (Val.vec 0)).1.readVec (h.alloc (Val.vec 0)).2)))).2 (((h.alloc (Val.vec 0)).1.alloc (Val.vec ((h.alloc (Val.vec 0)).1.readVec ab - ((h.alloc (Val.vec 0)).1.readMat aA).mulVec ((h.alloc (Val.vec 0)).1.readVec (h.alloc (Val.vec 0)).2)))).1.alloc (Val.vec (((h.alloc (Val.vec 0)).1.alloc (Val.vec ((h.alloc (Val.vec 0)).1.readVec ab - ((h.alloc (Val.vec 0)).1.readMat aA).mulVec ((h.alloc (Val.vec 0)).1.readVec (h.alloc (Val.vec 0)).2)))).1.readVec ((h.alloc (Val.vec 0)).1.alloc (Val.vec ((h.alloc (Val.vec 0)).1.readVec ab - ((h.alloc (Val.vec 0)).1.readMat aA).mulVec ((h.alloc (Val.vec 0)).1.readVec (h.alloc (Val.vec 0)).2)))).2))).2
      (dot (h.readVec ab - (h.readMat aA).mulVec 0) (h.readVec ab - (h.readMat aA).mulVec 0)) 0
      (0 : Vec n) (h.readVec ab - (h.readMat aA).mulVec 0) (h.readVec ab - (h.readMat aA).mulVec 0)
      (by simp only [heap_next_alloc, heap_next_write]
          omega)
      (by simp only [heap_next_alloc, heap_next_write]
          omega)
      (by simp only [heap_next_alloc, heap_next_write, heap_addr_alloc]
          omega)
      (by simp only [heap_next_alloc, heap_next_write, heap_addr_alloc]
          omega)
      (by simp only [heap_next_alloc, heap_next_write, heap_addr_alloc]
          omega)
      (by simp only [heap_addr_alloc, heap_next_alloc, heap_next_write]
          omega)
      (by simp only [heap_addr_alloc, heap_next_alloc, heap_next_write]
          omega)
      (by simp only [heap_addr_alloc, heap_next_alloc, heap_next_write]
          omega)
      (by simp only [heap_addr_alloc, heap_next_alloc, heap_next_write]
          omega)
      (by simp only [heap_addr_alloc, heap_next_alloc, heap_next_write]
          omega)
      (by simp only [heap_addr_alloc, heap_next_alloc, heap_next_write]
          omega)
      (by simp only [heap_addr_alloc, heap_next_alloc, heap_next_write]
          omega)
      (by
        simp only [heap_next_alloc, heap_next_write, heap_addr_alloc, readVec_alloc_eq, readVec_alloc_ne, readMat_alloc_ne, readMat_alloc_eq, ne_eq, not_false_iff, g1, g2, g3, g4, g5, g6, g7, g8, g9])
      (by
        simp only [heap_next_alloc, heap_next_write, heap_addr_alloc, readVec_alloc_eq, readVec_alloc_ne, readMat_alloc_ne, readMat_alloc_eq, ne_eq, not_false_iff, g1, g2, g3, g4, g5, g6, g7, g8, g9])
      (by
        simp only [heap_next_alloc, heap_next_write, heap_addr_alloc, readVec_alloc_eq, readVec_alloc_ne, readMat_alloc_ne, readMat_alloc_eq, ne_eq, not_false_iff, g1, g2, g3, g4, g5, g6, g7, g8, g9])
      (by
        simp only [heap_next_alloc, heap_next_write, heap_addr_alloc, readVec_alloc_eq, readVec_alloc_ne, readMat_alloc_ne, readMat_alloc_eq, ne_eq, not_false_iff, g1, g2, g3, g4, g5, g6, g7, g8, g9])
      (by
        simp only [heap_next_alloc, heap_next_write, heap_addr_alloc, readVec_alloc_eq, readVec_alloc_ne, readMat_alloc_ne, readMat_alloc_eq, ne_eq, not_false_iff, g1, g2, g3, g4, g5, g6, g7, g8, g9])
    simp only [conjugate_gradientH, conjugate_gradient, Option.map]
    rw [hrs, ← hgo]
    dsimp only
    rw [readVec_pres
      (cgHGo_pres m (h.alloc (Val.vec 0)).2 ((h.alloc (Val.vec 0)).1.alloc (Val.vec ((h.alloc (Val.vec 0)).1.readVec ab - ((h.alloc (Val.vec 0)).1.readMat aA).mulVec ((h.alloc (Val.vec 0)).1.readVec (h.alloc (Val.vec 0)).2)))).2 (((h.alloc (Val.vec 0)).1.alloc (Val.vec ((h.alloc (Val.vec 0)).1.readVec ab - ((h.alloc (Val.vec 0)).1.readMat aA).mulVec ((h.alloc (Val.vec 0)).1.readVec (h.alloc (Val.vec 0)).2)))).1.alloc (Val.vec (((h.alloc (Val.vec 0)).1.alloc (Val.vec ((h.alloc (Val.vec 0)).1.readVec ab - ((h.alloc (Val.vec 0)).1.readMat aA).mulVec ((h.alloc (Val.vec 0)).1.readVec (h.alloc (Val.vec 0)).2)))).1.readVec ((h.alloc (Val.vec 0)).1.alloc (Val.vec ((h.alloc (Val.vec 0)).1.readVec ab - ((h.alloc (Val.vec 0)).1.readMat aA).mulVec ((h.alloc (Val.vec 0)).1.readVec (h.alloc (Val.vec 0)).2)))).2))).2 (dot (h.readVec ab - (h.readMat aA).mulVec 0) (h.readVec ab - (h.readMat aA).mulVec 0)) 0 hp3
        (le_refl h.next) (Nat.le_succ h.next)) hxe]


lemma gsHInner_next {n : ℕ} (aA2 ab axold ax : ℕ) :
    ∀ (m : ℕ) (h : Heap n), (gsHInner aA2 ab axold ax m h).next = h.next := by
  intro m
  induction m with
  | zero => intro h; rfl
  | succ m ih =>
    intro h
    simp only [gsHInner]
    split
    · rw [heap_next_write, ih]
    · exact ih h


lemma gsHInner_readVec_ne {n : ℕ} (aA2 ab axold ax : ℕ) {a : ℕ} (ha : a ≠ ax) :
    ∀ (m : ℕ) (h : Heap n),
      (gsHInner aA2 ab axold ax m h).readVec a = h.readVec a := by
  intro m
  induction m with
  | zero => intro h; rfl
  | succ m ih =>
    intro h
    simp only [gsHInner]
    split
    · rw [readVec_write_ne _ _ ha, ih]
    · exact ih h


lemma gsHInner_readMat_ne {n : ℕ} (aA2 ab axold ax : ℕ) {a : ℕ} (ha : a ≠ ax) :
    ∀ (m : ℕ) (h : Heap n),
      (gsHInner aA2 ab axold ax m h).readMat a = h.readMat a := by
  intro m
  induction m with
  | zero => intro h; rfl
  | succ m ih =>
    intro h
    simp only [gsHInner]
    split
    · rw [readMat_write_ne _ _ ha, ih]
    · exact ih h


/-- The heap trace of the Gauss-Seidel inner loop computes, in the cell of
`x`, exactly the sequential component updates `gsAux` of the pure sweep. -/
lemma gsHInner_agrees {n : ℕ} (aA2 ab axold ax : ℕ) (A : Mat n) (b xold : Vec n)
    (nxA : ax ≠ aA2) (nxb : ax ≠ ab) (nxo : ax ≠ axold) :
    ∀ (m : ℕ) (h : Heap n),
      h.readMat aA2 = A → h.readVec ab = b → h.readVec axold = xold →
      h.readVec ax = xold →
      (gsHInner aA2 ab axold ax m h).readVec ax = gsAux A b xold m := by
  intro m
  induction m with
  | zero => intro h _ _ _ rx; exact rx
  | succ m ih =>
    intro h rA rb ro rx
    simp only [gsHInner, gsAux]
    split
    · rw [readVec_write_self,
        gsHInner_readMat_ne aA2 ab axold ax (Ne.symm nxA) m h, rA,
        gsHInner_readVec_ne aA2 ab axold ax (Ne.symm nxb) m h, rb,
        gsHInner_readVec_ne aA2 ab axold ax (Ne.symm nxo) m h, ro,
        ih h rA rb ro rx]
    · exact ih h rA rb ro rx


lemma gsHGo_agrees {n : ℕ} (tol : ℚ) (aA2 ab : ℕ) (A : Mat n) (b : Vec n) :
    ∀ (rem : ℕ) (h : Heap n) (ax k : ℕ) (x : Vec n),
      aA2 < h.next → ab < h.next → ax < h.next →
      ax ≠ aA2 → ax ≠ ab →
      h.readMat aA2 = A → h.readVec ab = b → h.readVec ax = x →
      ((gsHGo tol aA2 ab rem h ax k).1.readVec (gsHGo tol aA2 ab rem h ax k).2.1,
        (gsHGo tol aA2 ab rem h ax k).2.2)
        = gsGo A b tol rem x k := by
  intro rem
  induction rem with
  | zero =>
    intro h ax k x hA2 hb hax nA nb rA rb rx
    have d1 : aA2 ≠ h.next := Nat.ne_of_lt hA2
    have d2 : ab ≠ h.next := Nat.ne_of_lt hb
    have d3 : ax ≠ h.next := Nat.ne_of_lt hax
    simp only [gsHGo, gsGo]
    rw [rx]
    have rA1 : (h.alloc (Val.vec x)).1.readMat aA2 = A := by
      rw [readMat_alloc_ne _ _ d1]
      exact rA
    have rb1 : (h.alloc (Val.vec x)).1.readVec ab = b := by
      rw [readVec_alloc_ne _ _ d2]
      exact rb
    have rx1 : (h.alloc (Val.vec x)).1.readVec ax = x := by
      rw [readVec_alloc_ne _ _ d3]
      exact rx
    rw [gsHInner_agrees aA2 ab (h.alloc (Val.vec x)).2 ax A b x nA nb d3 n _
      rA1 rb1 (readVec_alloc_self h x) rx1]
    rfl
  | succ r ih =>
    intro h ax k x hA2 hb hax nA nb rA rb rx
    have d1 : aA2 ≠ h.next := Nat.ne_of_lt hA2
    have d2 : ab ≠ h.next := Nat.ne_of_lt hb
    have d3 : ax ≠ h.next := Nat.ne_of_lt hax
    simp only [gsHGo, gsGo]
    rw [rx]
    have rA1 : (h.alloc (Val.vec x)).1.readMat aA2 = A := by
      rw [readMat_alloc_ne _ _ d1]
      exact rA
    have rb1 : (h.alloc (Val.vec x)).1.readVec ab = b := by
      rw [readVec_alloc_ne _ _ d2]
      exact rb
    have rx1 : (h.alloc (Val.vec x)).1.readVec ax = x := by
      rw [readVec_alloc_ne _ _ d3]
      exact rx
    have hsw : (gsHInner aA2 ab (h.alloc (Val.vec x)).2 ax n
        (h.alloc (Val.vec x)).1).readVec ax = gsSweep A b x :=
      gsHInner_agrees aA2 ab (h.alloc (Val.vec x)).2 ax A b x nA nb d3 n _
        rA1 rb1 (readVec_alloc_self h x) rx1
    have rAi : (gsHInner aA2 ab (h.alloc (Val.vec x)).2 ax n
        (h.alloc (Val.vec x)).1).readMat aA2 = A := by
      rw [gsHInner_readMat_ne aA2 ab _ ax (Ne.symm nA) n _]
      exact rA1
    have rbi : (gsHInner aA2 ab (h.alloc (Val.vec x)).2 ax n
        (h.alloc (Val.vec x)).1).readVec ab = b := by
      rw [gsHInner_readVec_ne aA2 ab _ ax (Ne.symm nb) n _]
      exact rb1
    rw [rAi, rbi, hsw]
    split
    · dsimp only
      rw [hsw]
    · apply ih
      · rw [gsHInner_next, heap_next_alloc]
        omega
      · rw [gsHInner_next, heap_next_alloc]
        omega
      · rw [gsHInner_next, heap_next_alloc]
        omega
      · exact nA
      · exact nb
      · exact rAi
      · exact rbi
      · exact hsw


/-- The Gauss-Seidel heap trace returns the pure `gauss_seidel` result. -/
theorem gauss_seidelH_agrees {n : ℕ} (h : Heap n) (aA ab axe : ℕ) (tol : ℚ)
    (it : ℕ) (hA : aA < h.next) (hb : ab < h.next) (hxe : axe < h.next) :
    Option.map
      (fun r => ((gauss_seidelH h aA ab axe tol it).1.readVec r.1, r.2.1, r.2.2))
      (gauss_seidelH h aA ab axe tol it).2
      = gauss_seidel (h.readMat aA) (h.readVec ab) (h.readVec axe) tol it := by
  cases it with
  | zero => rfl
  | succ m =>
    have g1 : aA ≠ h.next := Nat.ne_of_lt hA
    have g2 : aA ≠ h.next + 1 := by omega
    have g4 : ab ≠ h.next := Nat.ne_of_lt hb
    have g5 : ab ≠ h.next + 1 := by omega
    have g8 : h.next ≠ h.next + 1 := by omega
    have hp2 : Pres h.next h ((h.alloc (Val.vec 0)).1.alloc (Val.mat ((h.alloc (Val.vec 0)).1.readMat aA))).1 :=
      pres_alloc_of (pres_alloc (le_refl h.next) (Val.vec 0)) (Val.mat ((h.alloc (Val.vec 0)).1.readMat aA))
    have hgo := gsHGo_agrees tol ((h.alloc (Val.vec 0)).1.alloc (Val.mat ((h.alloc (Val.vec 0)).1.readMat aA))).2 ab (h.readMat aA) (h.readVec ab) m
      ((h.alloc (Val.vec 0)).1.alloc (Val.mat ((h.alloc (Val.vec 0)).1.readMat aA))).1 (h.alloc (Val.vec 0)).2 0 (0 : Vec n)
      (by simp only [heap_next_alloc, heap_next_write, heap_addr_alloc]
          omega)
      (by simp only [heap_next_alloc, heap_next_write]
          omega)
      (by simp only [heap_next_alloc, heap_next_write, heap_addr_alloc]
          omega)
      (by simp only [heap_next_alloc, heap_next_write, heap_addr_alloc]
          omega)
      (by simp only [heap_addr_alloc]
          omega)
      (by
        simp only [heap_next_alloc, heap_next_write, heap_addr_alloc, readVec_alloc_eq, readVec_alloc_ne, readMat_alloc_ne, readMat_alloc_eq, ne_eq, not_false_iff, g1, g2, g4, g5, g8])
      (by
        simp only [heap_next_alloc, heap_next_write, heap_addr_alloc, readVec_alloc_eq, readVec_alloc_ne, readMat_alloc_ne, readMat_alloc_eq, ne_eq, not_false_iff, g1, g2, g4, g5, g8])
      (by
        simp only [heap_next_alloc, heap_next_write, heap_addr_alloc, readVec_alloc_eq, readVec_alloc_ne, readMat_alloc_ne, readMat_alloc_eq, ne_eq, not_false_iff, g1, g2, g4, g5, g8])
    simp only [gauss_seidelH, gauss_seidel, Option.map]
    rw [← hgo]
    dsimp only
    rw [readVec_pres (gsHGo_pres m (h.alloc (Val.vec 0)).2 0 hp2 (le_refl h.next)) hxe]


/-- Claim C9: no solver call modifies any object the caller already owned.
For each of the four methods, every heap address that was valid before the
call (in particular the addresses of the matrix `A`, the right-hand side `b`
and the exact solution `x_exact`, wherever the caller keeps them) holds the
same object after the call: the in-place updates of the solvers only ever hit
arrays freshly allocated inside the call, and Gauss-Seidel's dense conversion
allocates a fresh dense copy instead of altering the caller's sparse matrix. -/
theorem solvers_preserve_inputs :
    ∀ {n : ℕ} (h : Heap n) (aA ab axe : ℕ) (tol : ℚ) (it : ℕ) (a : ℕ),
      a < h.next →
      (jacobiH h aA ab axe tol it).1.mem a = h.mem a ∧
      (gauss_seidelH h aA ab axe tol it).1.mem a = h.mem a ∧
      (gradientH h aA ab axe tol it).1.mem a = h.mem a ∧
      (conjugate_gradientH h aA ab axe tol it).1.mem a = h.mem a :=
  fun h aA ab axe tol it a ha =>
    ⟨(jacobiH_pres h aA ab axe tol it).2 a ha,
     (gauss_seidelH_pres h aA ab axe tol it).2 a ha,
     (gradientH_pres h aA ab axe tol it).2 a ha,
     (conjugate_gradientH_pres h aA ab axe tol it).2 a ha⟩


/-- Witness for `solvers_preserve_inputs` at the concrete heap. -/
theorem solvers_preserve_inputs_witness :
    (0 : ℕ) < testHeap.next ∧
    ((jacobiH testHeap 0 1 2 1 1).1.mem 0 = testHeap.mem 0 ∧
     (gauss_seidelH testHeap 0 1 2 1 1).1.mem 0 = testHeap.mem 0 ∧
     (gradientH testHeap 0 1 2 1 1).1.mem 0 = testHeap.mem 0 ∧
     (conjugate_gradientH testHeap 0 1 2 1 1).1.mem 0 = testHeap.mem 0) :=
  ⟨Nat.zero_lt_succ _, solvers_preserve_inputs testHeap 0 1 2 1 1 0 (Nat.zero_lt_succ _)⟩


/-- Witness for `residual_invariant` at a concrete one-dimensional state. -/
theorem residual_invariant_witness :
    ((1 : Vec 1) = (1 : Vec 1) - (1 : Mat 1).mulVec 0) ∧
    ((gradNext (1 : Mat 1) 0 1 1).2 =
        (1 : Vec 1) - (1 : Mat 1).mulVec (gradNext (1 : Mat 1) 0 1 1).1 ∧
      (cgNext (1 : Mat 1) 0 1 1 1).2 =
        (1 : Vec 1) - (1 : Mat 1).mulVec (cgNext (1 : Mat 1) 0 1 1 1).1) :=
  ⟨by simp, residual_invariant (1 : Mat 1) 1 0 1 1 1 (by simp)⟩


end LSL
